import Mathlib

/-!
Verification development for the AutoClaim rule-based verification engine
(`server/app/services/verification_rules.py`) and the repair cost estimator
(`server/app/services/repair_estimator_service.py`).

The Python code is shallowly embedded: dictionaries with `.get`-style
defaulting become structures whose fields carry the same defaults,
`Optional` values become `Option`, floats become `Rat`, and the engine's
mutable accumulator (`self._passed`, `self._failed`, `self._raw_score`)
becomes an explicit `EngineState` threaded through the sixteen checks.
The wall-clock date read by `datetime.utcnow()` inside checks 15 and 16
is modelled as an explicit `today : Int` parameter (days).  ISO date
strings are abstracted at day granularity: a policy date field is
`Option (Option Int)` — `none` for an absent/falsy string, `some none`
for a truthy string `datetime.fromisoformat` rejects (which triggers the
`except` branch), and `some (some d)` for a string parsing to day `d`.
Human-readable `reason` strings are kept but numeric interpolation and
Python number formatting are abstracted (no claim depends on reasons).
The `timestamp` field of the Python result (`utcnow().isoformat()`) is
not modelled; every claim excludes it.
-/

namespace Autoclaim

/-- Python truthiness of an optional string: `None` and `""` are falsy. -/
def strTruthy : Option String → Bool
  | none => false
  | some s => !s.isEmpty

/-- `x or ""` in Python applied to an optional string. -/
def strD (x : Option String) : String := x.getD ""

/-- `(x or d)` in Python: falsy (`None` / `""`) falls back to `d`. -/
def strDefault (x : Option String) (d : String) : String :=
  match x with
  | none => d
  | some s => if s.isEmpty then d else s

/-- Python truthiness of an optional number: `None` and `0.0` are falsy. -/
def ratTruthy : Option Rat → Bool
  | none => false
  | some x => x != 0

/-- `(x or 0.0)` in Python applied to an optional number. -/
def ratD (x : Option Rat) : Rat := x.getD 0

/-- `(a or d)` in Python for an optional integer (`0` is falsy). -/
def orInt (x : Option Int) (d : Int) : Int :=
  match x with
  | none => d
  | some v => if v = 0 then d else v

/-- `sub` is a prefix of the second list (character-wise). -/
def isPrefOf : List Char → List Char → Bool
  | [], _ => true
  | _ :: _, [] => false
  | a :: as, b :: bs => a == b && isPrefOf as bs

/-- `sub` occurs as a contiguous sublist of the second list. -/
def subIn (sub : List Char) : List Char → Bool
  | [] => isPrefOf sub []
  | h :: t => isPrefOf sub (h :: t) || subIn sub t

/-- Python `sub in hay` for strings: substring containment. -/
def strIn (sub hay : String) : Bool := subIn sub.data hay.data

/-- Plate normalization: `.upper().replace(" ", "").replace("-", "")`. -/
def normPlate (s : String) : String :=
  String.mk (s.toUpper.data.filter (fun c => !(c == ' ' || c == '-')))

/-- `str.split()` in Python: split on whitespace, dropping empty tokens. -/
def pySplit (s : String) : List String :=
  (s.split Char.isWhitespace).filter (fun t => !t.isEmpty)

/-- `_location_matches`: case-insensitive token-set overlap after
replacing commas by spaces and removing the stopwords
the / of / and / in / at / near. -/
def location_matches (loc1 loc2 : String) : Bool :=
  let stopwords : List String := ["the", "of", "and", "in", "at", "near"]
  let tokens1 := (pySplit (String.mk (loc1.toLower.data.map
    (fun c => if c == ',' then ' ' else c)))).filter (fun t => !stopwords.contains t)
  let tokens2 := (pySplit (String.mk (loc2.toLower.data.map
    (fun c => if c == ',' then ' ' else c)))).filter (fun t => !stopwords.contains t)
  tokens1.any (fun t => tokens2.contains t)

/-! ## Fact bundle (the `ai_analysis` dictionary) -/

/-- `exif_metadata.gps_coordinates`. -/
structure ExifGps where
  latitude : Option Rat := none
  longitude : Option Rat := none
deriving Repr, DecidableEq

/-- `exif_metadata` section. -/
structure ExifMetadata where
  timestamp : Option String := none
  gps_coordinates : ExifGps := {}
  location_name : Option String := none
deriving Repr, DecidableEq

/-- `ocr_data` section. -/
structure OcrData where
  plate_text : Option String := none
  confidence : Option Rat := none
  chase_number : Option String := none
  chase_number_confidence : Option Rat := none
deriving Repr, DecidableEq

/-- `yolo_results` section. -/
structure YoloResults where
  yolo_damage_detected : Option Bool := none
  yolo_severity : Option String := none
deriving Repr, DecidableEq

/-- `vehicle_identification` section. -/
structure VehicleIdentification where
  make : Option String := none
  model : Option String := none
  color : Option String := none
  detected_confidence : Option Rat := none
  license_plate_obscured : Bool := false
deriving Repr, DecidableEq

/-- `forensic_indicators` section. -/
structure ForensicIndicators where
  is_screen_recapture : Bool := false
  has_ui_elements : Bool := false
  is_blurry : Bool := false
  image_quality : Option String := none
  multiple_light_sources : Bool := false
  shadows_inconsistent : Bool := false
  has_watermarks : Bool := false
  is_rust_present : Bool := false
  is_paint_faded_around_damage : Bool := false
  is_dirt_in_damage : Bool := false
deriving Repr, DecidableEq

/-- `authenticity_indicators` section. -/
structure AuthenticityIndicators where
  stock_photo_likelihood : Option String := none
  editing_detected : Bool := false
  lighting_consistent : Bool := true
  shadows_natural : Bool := true
  compression_uniform : Bool := true
deriving Repr, DecidableEq

/-- `damage_assessment` section. -/
structure DamageAssessment where
  ai_damage_detected : Option Bool := none
  ai_severity : Option String := none
  airbags_deployed : Bool := false
  fluid_leaks_visible : Bool := false
  parts_missing : Bool := false
  ai_cost_min : Option Int := none
  ai_cost_max : Option Int := none
deriving Repr, DecidableEq

/-- `pre_existing_indicators` section. -/
structure PreExistingIndicators where
  rust_detected : Bool := false
  paint_fading : Bool := false
  dirt_accumulation : Bool := false
  old_repairs_visible : Bool := false
deriving Repr, DecidableEq

/-- `narrative_consistency` section. -/
structure NarrativeConsistency where
  visual_evidence_matches : Bool := false
  inconsistencies : List String := []
deriving Repr, DecidableEq

/-- `multi_image_analysis` section; `none` models the empty/absent dict
(`if not multi`), a present section carries per-flag defaults `True`. -/
structure MultiImageAnalysis where
  plates_consistent : Bool := true
  vehicle_consistent : Bool := true
  lighting_consistent : Bool := true
  damage_location_consistent : Bool := true
deriving Repr, DecidableEq

/-- The fact bundle: every section optional with `.get` defaults, so an
absent section is indistinguishable from its all-defaults structure,
except `multi_image_analysis` whose dict truthiness is tested. -/
structure AiAnalysis where
  exif_metadata : ExifMetadata := {}
  ocr_data : OcrData := {}
  yolo_results : YoloResults := {}
  vehicle_identification : VehicleIdentification := {}
  forensic_indicators : ForensicIndicators := {}
  authenticity_indicators : AuthenticityIndicators := {}
  damage_assessment : DamageAssessment := {}
  pre_existing_indicators : PreExistingIndicators := {}
  narrative_consistency : NarrativeConsistency := {}
  multi_image_analysis : Option MultiImageAnalysis := none
deriving Repr, DecidableEq

/-- Policy row.  Dates are abstracted at day granularity:
`none` = absent or falsy string, `some none` = truthy but not ISO-parseable
(raises inside the `try`), `some (some d)` = parses to day `d`. -/
structure PolicyData where
  vehicle_make : Option String := none
  vehicle_model : Option String := none
  vehicle_color : Option String := none
  vehicle_registration : Option String := none
  chase_number : Option String := none
  status : Option String := none
  plan_coverage : Option Int := none
  coverage_amount : Option Int := none
  location : Option String := none
  start_date : Option (Option Int) := none
  end_date : Option (Option Int) := none
deriving Repr, DecidableEq

/-- One prior claim for the duplicate guard.  `created_at` is `some t`
when `datetime.fromisoformat` succeeds (day number `t`), `none` when it
raises (age defaults to 999 days). -/
structure HistoryEntry where
  claim_id : Int := 0
  status : Option String := none
  created_at : Option Int := none
  vehicle_registration : Option String := none
deriving Repr, DecidableEq

/-! ## Configuration and result types -/

/-- `RuleConfig`: thresholds and weights, defaults as in the source. -/
structure RuleConfig where
  AUTO_APPROVAL_AMOUNT_THRESHOLD : Int := 20000
  MIN_VEHICLE_DETECTION_CONFIDENCE : Rat := 85/100
  MIN_OCR_PLATE_CONFIDENCE : Rat := 80/100
  MIN_CHASE_NUMBER_CONFIDENCE : Rat := 75/100
  SEVERITY_WEIGHTS : List (String × Rat) :=
    [("CRITICAL", 10), ("HIGH", 5), ("MEDIUM", 2), ("LOW", 1)]
  AUTO_REJECT_SCORE_THRESHOLD : Rat := 10
  FLAG_FOR_REVIEW_SCORE_THRESHOLD : Rat := 2
  STOCK_PHOTO_REJECT_LEVELS : List String := ["high", "very_high"]
  maxClaimToEstimateRatio : Rat := 2
  YOLO_AI_SEVERITY_MISMATCH_PENALTY : Rat := 3
  DUPLICATE_CLAIM_WINDOW_DAYS : Int := 30
  COMPOUND_FAILURE_THRESHOLD : Nat := 3
  COMPOUND_MULTIPLIER : Rat := 3/2
deriving Repr

/-- The engine's default configuration (`RuleConfig()`). -/
def defaultRuleConfig : RuleConfig := {}

/-- `SEVERITY_WEIGHTS.get(severity, 0)`. -/
def severityWeight (w : List (String × Rat)) (severity : String) : Rat :=
  match w.find? (fun p => p.1 == severity) with
  | some p => p.2
  | none => 0

/-- A `FailedRule` record appended by `_fail`. -/
structure FailedRule where
  rule_id : String
  rule_name : String
  reason : String
  severity : String
  phase : String
deriving Repr, DecidableEq

/-- The mutable accumulator of `VerificationRules`
(`self._passed`, `self._failed`, `self._raw_score`). -/
structure EngineState where
  passed : List String := []
  failed : List FailedRule := []
  raw_score : Rat := 0
deriving Repr, DecidableEq

/-- `self._reset()`. -/
def reset (_ : EngineState) : EngineState := {}

/-- `self._pass(rule_id)`. -/
def rulePass (st : EngineState) (rule_id : String) : EngineState :=
  { st with passed := st.passed ++ [rule_id] }

/-- `self._fail(...)`: append the failure and add its severity weight. -/
def ruleFail (cfg : RuleConfig) (st : EngineState)
    (rule_id rule_name reason severity phase : String) : EngineState :=
  { st with
    failed := st.failed ++ [⟨rule_id, rule_name, reason, severity, phase⟩],
    raw_score := st.raw_score + severityWeight cfg.SEVERITY_WEIGHTS severity }

/-- `VerificationResult` (without the unmodelled wall-clock timestamp). -/
structure VerificationResult where
  status : String
  decision_reason : String
  confidence_level : String
  confidence_score : Rat
  auto_approved : Bool
  requires_human_review : Bool
  requires_monitoring : Bool
  severity_score : Rat
  passed_checks : List String
  failed_checks : List FailedRule
deriving Repr, DecidableEq

/-! ## Phase A — Integrity and Source checks -/

/-- CHECK 1: Image Quality Gate.  A screen-recapture / UI-artifact hit
records one CRITICAL failure and returns from the method (skipping the
blur and low-quality branches of this check only). -/
def check_1_image_quality_gate (cfg : RuleConfig) (ai : AiAnalysis)
    (st : EngineState) : EngineState :=
  let is_screen := ai.forensic_indicators.is_screen_recapture
  let has_ui := ai.forensic_indicators.has_ui_elements
  let is_blurry := ai.forensic_indicators.is_blurry
  let quality := (strDefault ai.forensic_indicators.image_quality "high").toLower
  if is_screen || has_ui then
    ruleFail cfg st "SCREEN_RECAPTURE"
      "Image Quality Gate - Screen Recapture (v2 NEW)"
      "Image appears to be a screen-capture or photo of a screen. EXIF metadata is stripped and AI results are unreliable."
      "CRITICAL" "A"
  else if is_blurry then
    ruleFail cfg st "IMAGE_BLURRY"
      "Image Quality Gate - Blur Detection (v2 NEW)"
      "Image is excessively blurry. Damage and plate recognition are unreliable."
      "HIGH" "A"
  else if quality == "low" then
    ruleFail cfg st "IMAGE_LOW_QUALITY"
      "Image Quality Gate - Low Quality (v2 NEW)"
      "Image quality is low. AI analysis may be inaccurate."
      "MEDIUM" "A"
  else
    rulePass st "IMAGE_QUALITY_OK"

/-- CHECK 2: Metadata Verification (EXIF timestamp, then GPS). -/
def check_2_metadata_verification (cfg : RuleConfig) (ai : AiAnalysis)
    (policy : PolicyData) (st : EngineState) : EngineState :=
  let exif := ai.exif_metadata
  let st :=
    if !strTruthy exif.timestamp then
      ruleFail cfg st "METADATA_MISSING" "Metadata Verification (FR-2.1)"
        "No EXIF timestamp - possible screenshot or digitally edited image."
        "HIGH" "A"
    else rulePass st "METADATA_TIMESTAMP"
  let gps := exif.gps_coordinates
  if ratTruthy gps.latitude && ratTruthy gps.longitude then
    let policy_loc := (strD policy.location).toLower
    let detected_loc := (strD exif.location_name).toLower
    if !policy_loc.isEmpty && !detected_loc.isEmpty then
      if !location_matches policy_loc detected_loc then
        ruleFail cfg st "GPS_LOCATION_MISMATCH" "GPS Location Verification"
          "Location mismatch between policy location and GPS location name."
          "MEDIUM" "A"
      else rulePass st "GPS_LOCATION"
    else rulePass st "GPS_EXISTS"
  else
    ruleFail cfg st "GPS_MISSING" "GPS Verification"
      "No GPS coordinates in image metadata."
      "LOW" "A"

/-- CHECK 3: Reverse Image Search / stock-photo likelihood. -/
def check_3_reverse_image_search (cfg : RuleConfig) (ai : AiAnalysis)
    (st : EngineState) : EngineState :=
  let auth := ai.authenticity_indicators
  let likelihood := (strDefault auth.stock_photo_likelihood "unknown").toLower
  if cfg.STOCK_PHOTO_REJECT_LEVELS.contains likelihood then
    ruleFail cfg st "STOCK_PHOTO_DETECTED" "Reverse Image Search (FR-2.2)"
      "Image highly likely to be a stock or internet photo."
      "CRITICAL" "A"
  else if likelihood == "medium" then
    ruleFail cfg st "STOCK_PHOTO_SUSPICIOUS" "Stock Photo Check (FR-2.2)"
      "Image has stock-photo characteristics - original source unconfirmed."
      "MEDIUM" "A"
  else rulePass st "REVERSE_IMAGE_SEARCH"

/-- CHECK 4: Digital Forgery Detection; any triggered indicator yields a
single CRITICAL failure listing all of them. -/
def check_4_digital_forgery (cfg : RuleConfig) (ai : AiAnalysis)
    (st : EngineState) : EngineState :=
  let auth := ai.authenticity_indicators
  let forensic := ai.forensic_indicators
  let issues : List String :=
    (if auth.editing_detected then ["digital editing detected"] else []) ++
    (if !auth.lighting_consistent then ["inconsistent lighting"] else []) ++
    (if !auth.shadows_natural then ["unnatural shadows"] else []) ++
    (if !auth.compression_uniform then ["non-uniform compression artifacts"] else []) ++
    (if forensic.multiple_light_sources then ["multiple conflicting light sources"] else []) ++
    (if forensic.shadows_inconsistent then ["shadow direction inconsistency"] else []) ++
    (if forensic.has_watermarks then ["watermarks detected (possible recycled media)"] else [])
  if !issues.isEmpty then
    ruleFail cfg st "DIGITAL_MANIPULATION" "Digital Forgery Detection (FR-2.3)"
      (String.append "Image manipulation indicators: "
        (String.append (String.intercalate ", " issues) "."))
      "CRITICAL" "A"
  else rulePass st "DIGITAL_FORGERY"

/-! ## Phase B — Vehicle and Damage verification -/

/-- CHECK 5: Vehicle Match — confidence gate (MEDIUM), make/model
substring containment (CRITICAL on failure), optional color check
(MEDIUM), each recorded independently. -/
def check_5_vehicle_match (cfg : RuleConfig) (ai : AiAnalysis)
    (policy : PolicyData) (st : EngineState) : EngineState :=
  let detected := ai.vehicle_identification
  let p_make := (strD policy.vehicle_make).toLower
  let p_model := (strD policy.vehicle_model).toLower
  let d_make := (strD detected.make).toLower
  let d_model := (strD detected.model).toLower
  let confidence := ratD detected.detected_confidence
  let p_color := (strD policy.vehicle_color).toLower
  let d_color := (strD detected.color).toLower
  let st :=
    if confidence < cfg.MIN_VEHICLE_DETECTION_CONFIDENCE then
      ruleFail cfg st "VEHICLE_LOW_CONFIDENCE" "Vehicle Detection Confidence"
        "Vehicle ID confidence is below threshold."
        "MEDIUM" "B"
    else st
  let make_ok := !p_make.isEmpty && (strIn p_make d_make || strIn d_make p_make)
  let model_ok := !p_model.isEmpty && (strIn p_model d_model || strIn d_model p_model)
  let st :=
    if !(make_ok && model_ok) then
      ruleFail cfg st "VEHICLE_MISMATCH" "Vehicle Match (FR-2.4)"
        "Vehicle mismatch between policy make/model and detected make/model."
        "CRITICAL" "B"
    else rulePass st "VEHICLE_MATCH"
  if !p_color.isEmpty && !d_color.isEmpty &&
      !strIn p_color d_color && !strIn d_color p_color then
    ruleFail cfg st "VEHICLE_COLOR_MISMATCH" "Vehicle Color Verification (v2 NEW)"
      "Color mismatch between policy color and detected color."
      "MEDIUM" "B"
  else st

/-- CHECK 6: License Plate Match — strict exact match after
normalization; missing plate HIGH (MEDIUM when reported obscured),
low OCR confidence MEDIUM (non-blocking). -/
def check_6_license_plate_match (cfg : RuleConfig) (ai : AiAnalysis)
    (policy : PolicyData) (st : EngineState) : EngineState :=
  let ocr := ai.ocr_data
  let raw_text := strD ocr.plate_text
  let ocr_text := normPlate raw_text
  let ocr_conf := ratD ocr.confidence
  let policy_plate := normPlate (strD policy.vehicle_registration)
  let plate_obscured := ai.vehicle_identification.license_plate_obscured
  if ocr_text.isEmpty then
    ruleFail cfg st "PLATE_NOT_DETECTED" "License Plate Detection (FR-2.5)"
      "License plate not visible or unreadable."
      (if !plate_obscured then "HIGH" else "MEDIUM") "B"
  else
    let st :=
      if ocr_conf < cfg.MIN_OCR_PLATE_CONFIDENCE then
        ruleFail cfg st "PLATE_LOW_CONFIDENCE" "License Plate OCR Confidence"
          "OCR confidence below threshold."
          "MEDIUM" "B"
      else st
    if !policy_plate.isEmpty && ocr_text != policy_plate then
      ruleFail cfg st "PLATE_MISMATCH" "License Plate Verification (FR-2.5)"
        "Plate mismatch between policy registration and OCR text."
        "CRITICAL" "B"
    else rulePass st "LICENSE_PLATE"

/-- CHECK 7: Chase / VIN number — absent passes, low confidence MEDIUM,
mismatch HIGH. -/
def check_7_chase_number_match (cfg : RuleConfig) (ai : AiAnalysis)
    (policy : PolicyData) (st : EngineState) : EngineState :=
  let ocr := ai.ocr_data
  let ocr_chase := (strD ocr.chase_number).toUpper.trim
  let chase_conf := ratD ocr.chase_number_confidence
  let policy_chase := (strD policy.chase_number).toUpper.trim
  if ocr_chase.isEmpty then
    rulePass st "CHASE_NUMBER_NOT_PROVIDED"
  else
    let st :=
      if chase_conf < cfg.MIN_CHASE_NUMBER_CONFIDENCE then
        ruleFail cfg st "CHASE_NUMBER_LOW_CONFIDENCE" "Chase Number OCR Confidence"
          "Chase number OCR confidence below threshold."
          "MEDIUM" "B"
      else st
    if !policy_chase.isEmpty && ocr_chase != policy_chase then
      ruleFail cfg st "CHASE_NUMBER_MISMATCH" "Chase Number Verification (FR-2.8)"
        "Chase number mismatch between policy and OCR."
        "HIGH" "B"
    else rulePass st "CHASE_NUMBER_MATCH"

/-- CHECK 8: Pre-Existing Damage — one HIGH failure listing all present
indicators (read both from `pre_existing_indicators` and flat forensic
fields). -/
def check_8_pre_existing_damage (cfg : RuleConfig) (ai : AiAnalysis)
    (st : EngineState) : EngineState :=
  let pre := ai.pre_existing_indicators
  let forensic := ai.forensic_indicators
  let indicators : List String :=
    (if pre.rust_detected || forensic.is_rust_present
      then ["rust in damaged area"] else []) ++
    (if pre.paint_fading || forensic.is_paint_faded_around_damage
      then ["paint fading around damage"] else []) ++
    (if pre.dirt_accumulation || forensic.is_dirt_in_damage
      then ["accumulated dirt in damage"] else []) ++
    (if pre.old_repairs_visible then ["evidence of previous repairs"] else [])
  if !indicators.isEmpty then
    ruleFail cfg st "PRE_EXISTING_DAMAGE" "Pre-Existing Damage Detection (FR-2.6)"
      (String.append "Pre-existing damage indicators: "
        (String.append (String.intercalate ", " indicators) "."))
      "HIGH" "B"
  else rulePass st "PRE_EXISTING_DAMAGE"

/-- `severity_rank` lookup with default 0. -/
def severityRank (s : String) : Int :=
  match [("none", (0 : Int)), ("minor", 1), ("moderate", 2),
         ("severe", 3), ("totaled", 4)].find? (fun p => p.1 == s) with
  | some p => p.2
  | none => 0

/-- CHECK 9: YOLO vs AI damage corroboration.  Binary disagreement HIGH;
severity-rank gap ≥ 2 yields MEDIUM plus a direct score penalty. -/
def check_9_yolo_damage_corroboration (cfg : RuleConfig) (ai : AiAnalysis)
    (st : EngineState) : EngineState :=
  let yolo_detected := ai.yolo_results.yolo_damage_detected
  let yolo_severity := (strDefault ai.yolo_results.yolo_severity "none").toLower
  let ai_detected := ai.damage_assessment.ai_damage_detected
  let ai_severity := (strDefault ai.damage_assessment.ai_severity "none").toLower
  match yolo_detected, ai_detected with
  | none, _ => rulePass st "YOLO_CORROBORATION_SKIPPED"
  | some _, none => rulePass st "YOLO_CORROBORATION_SKIPPED"
  | some yd, some ad =>
    if yd != ad then
      ruleFail cfg st "YOLO_AI_DAMAGE_DISAGREEMENT"
        "YOLO vs AI Damage Corroboration (v2 NEW)"
        "YOLO damage detection contradicts AI damage detection. Possible image spoofing between analysis stages."
        "HIGH" "B"
    else
      let yolo_rank := severityRank yolo_severity
      let ai_rank := severityRank ai_severity
      let diff := (yolo_rank - ai_rank).natAbs
      if diff ≥ 2 then
        let st := ruleFail cfg st "YOLO_AI_SEVERITY_GAP"
          "YOLO vs AI Severity Gap (v2 NEW)"
          "Severity discrepancy between YOLO and AI assessments."
          "MEDIUM" "B"
        { st with raw_score := st.raw_score + cfg.YOLO_AI_SEVERITY_MISMATCH_PENALTY }
      else rulePass st "YOLO_AI_CORROBORATED"

/-- CHECK 10: Totalled-vehicle physical markers; applies only when the
AI severity is `totaled`. -/
def check_10_totalled_vehicle_markers (cfg : RuleConfig) (ai : AiAnalysis)
    (st : EngineState) : EngineState :=
  let ai_severity := (strDefault ai.damage_assessment.ai_severity "none").toLower
  let airbags := ai.damage_assessment.airbags_deployed
  let fluid_leaks := ai.damage_assessment.fluid_leaks_visible
  let parts_missing := ai.damage_assessment.parts_missing
  if ai_severity == "totaled" then
    let markers : List String :=
      (if airbags then ["airbag deployment"] else []) ++
      (if fluid_leaks then ["fluid leaks"] else []) ++
      (if parts_missing then ["missing parts"] else [])
    if markers.isEmpty then
      ruleFail cfg st "TOTALED_NO_PHYSICAL_MARKERS"
        "Totalled Vehicle Physical Marker Check (v2 NEW)"
        "Severity assessed as totaled but no physical markers are visible. Possible severity inflation."
        "HIGH" "B"
    else rulePass st "TOTALED_MARKERS_PRESENT"
  else rulePass st "TOTAL_VEHICLE_CHECK_NA"

/-! ## Phase C — Contextual consistency -/

/-- CHECK 11: Narrative Consistency — `visual_evidence_matches` defaults
to `False`, so an absent section fails HIGH. -/
def check_11_narrative_consistency (cfg : RuleConfig) (ai : AiAnalysis)
    (st : EngineState) : EngineState :=
  let narrative := ai.narrative_consistency
  if !narrative.visual_evidence_matches then
    let inconsistencies := narrative.inconsistencies
    ruleFail cfg st "NARRATIVE_MISMATCH" "Narrative Consistency (FR-2.7)"
      (if !inconsistencies.isEmpty then
        String.append "Narrative inconsistent with evidence: "
          (String.intercalate "; " inconsistencies)
      else "User narrative does not match visual evidence.")
      "HIGH" "C"
  else rulePass st "NARRATIVE_CONSISTENCY"

/-- CHECK 12: Multi-Image Consistency — no-op pass without
multi-image data; otherwise one HIGH failure listing all mismatches. -/
def check_12_multi_image_consistency (cfg : RuleConfig) (ai : AiAnalysis)
    (st : EngineState) : EngineState :=
  match ai.multi_image_analysis with
  | none => rulePass st "MULTI_IMAGE_NOT_APPLICABLE"
  | some multi =>
    let issues : List String :=
      (if !multi.plates_consistent
        then ["different license plates across images"] else []) ++
      (if !multi.vehicle_consistent
        then ["vehicle make/model differs across images"] else []) ++
      (if !multi.lighting_consistent
        then ["time-of-day / lighting differs across images"] else []) ++
      (if !multi.damage_location_consistent
        then ["damage location contradicts across angles"] else [])
    if !issues.isEmpty then
      ruleFail cfg st "MULTI_IMAGE_INCONSISTENCY"
        "Multi-Image Consistency Check (v2 NEW)"
        (String.append "Cross-image inconsistencies detected: "
          (String.append (String.intercalate ", " issues) "."))
        "HIGH" "C"
    else rulePass st "MULTI_IMAGE_CONSISTENT"

/-! ## Phase D — Financial sanity -/

/-- CHECK 13: Amount Threshold. -/
def check_13_amount_threshold (cfg : RuleConfig) (claim_amount : Int)
    (st : EngineState) : EngineState :=
  if claim_amount ≤ cfg.AUTO_APPROVAL_AMOUNT_THRESHOLD then
    rulePass st "AMOUNT_THRESHOLD"
  else
    ruleFail cfg st "AMOUNT_EXCEEDS_THRESHOLD" "Amount Threshold Check (FR-3.1)"
      "Claim exceeds auto-approval limit."
      "MEDIUM" "D"

/-- CHECK 14: Damage–Cost Sanity.  Severity `none` with a positive claim
is CRITICAL and returns; the inflation and under-declaration comparisons
run only when `ai_cost_max` is present and positive. -/
def check_14_damage_cost_sanity (cfg : RuleConfig) (claim_amount : Int)
    (ai : AiAnalysis) (st : EngineState) : EngineState :=
  let damage := ai.damage_assessment
  let ai_severity := (strDefault damage.ai_severity "none").toLower
  let ai_min := damage.ai_cost_min
  let ai_max := damage.ai_cost_max
  if ai_severity == "none" && claim_amount > 0 then
    ruleFail cfg st "CLAIM_NO_DAMAGE_DETECTED"
      "Damage-Cost Sanity - No Damage (v2 NEW)"
      "AI detected no damage but a positive claim was submitted. Possible fraud."
      "CRITICAL" "D"
  else
    match ai_max with
    | some mx =>
      if mx > 0 then
        if (claim_amount : Rat) / (mx : Rat) > cfg.maxClaimToEstimateRatio then
          ruleFail cfg st "CLAIM_INFLATED"
            "Damage-Cost Sanity - Inflated Claim (v2 NEW)"
            "Claim exceeds the allowed multiple of the AI max estimate. Possible claim inflation."
            "HIGH" "D"
        else
          match ai_min with
          | some mn =>
            if (claim_amount : Rat) < (mn : Rat) / 2 then
              ruleFail cfg st "CLAIM_SUSPICIOUSLY_LOW"
                "Damage-Cost Sanity - Under-declared (v2 NEW)"
                "Claim is far below the AI min estimate. Possible under-declaration or incorrect images."
                "LOW" "D"
            else rulePass st "DAMAGE_COST_SANITY"
          | none => rulePass st "DAMAGE_COST_SANITY"
      else rulePass st "DAMAGE_COST_SANITY_NO_ESTIMATE"
    | none => rulePass st "DAMAGE_COST_SANITY_NO_ESTIMATE"

/-! ## Phase E — Policy and history validation -/

/-- The `in_window` computation of check 15, with the source's
exception semantics: a parse failure on either bound re-sets
`in_window` to `True`. -/
def policyInWindow (today : Int) (start_date end_date : Option (Option Int)) : Bool :=
  match start_date with
  | some none => true
  | some (some s) =>
    match end_date with
    | some none => true
    | some (some e) => !(today < s) && !(today > e)
    | none => !(today < s)
  | none =>
    match end_date with
    | some none => true
    | some (some e) => !(today > e)
    | none => true

/-- CHECK 15: Policy Active and Coverage — three independent sub-checks
(status, date window, coverage ceiling), each recording an outcome. -/
def check_15_policy_active_and_coverage (cfg : RuleConfig)
    (policy : PolicyData) (claim_amount : Int) (today : Int)
    (st : EngineState) : EngineState :=
  let status := (strD policy.status).toLower
  let coverage := orInt policy.plan_coverage (orInt policy.coverage_amount 0)
  let st :=
    if status != "active" then
      ruleFail cfg st "POLICY_INACTIVE" "Policy Status Check (v2 NEW)"
        "Policy status must be active for claim processing."
        "CRITICAL" "E"
    else rulePass st "POLICY_ACTIVE"
  let in_window := policyInWindow today policy.start_date policy.end_date
  let st :=
    if !in_window then
      ruleFail cfg st "POLICY_EXPIRED_OR_NOT_STARTED"
        "Policy Date Window Check (v2 NEW)"
        "Incident date falls outside the policy window."
        "CRITICAL" "E"
    else rulePass st "POLICY_DATE_WINDOW"
  if coverage != 0 && claim_amount > coverage then
    ruleFail cfg st "CLAIM_EXCEEDS_COVERAGE" "Policy Coverage Limit Check (v2 NEW)"
      "Claim exceeds policy coverage. Requires agent to assess partial payout."
      "MEDIUM" "E"
  else rulePass st "COVERAGE_ADEQUATE"

/-- Age in days of a prior claim (999 when `created_at` fails to parse). -/
def historyAgeDays (now : Int) (created_at : Option Int) : Int :=
  match created_at with
  | some t => now - t
  | none => 999

/-- CHECK 16: Duplicate / Repeat-Claim Guard.  Open-claim and
recent-same-plate conditions are evaluated independently and can both
fire in the same run. -/
def check_16_duplicate_claim_guard (cfg : RuleConfig) (ai : AiAnalysis)
    (policy : PolicyData) (history : Option (List HistoryEntry)) (now : Int)
    (st : EngineState) : EngineState :=
  match history with
  | none => rulePass st "DUPLICATE_CLAIM_NOT_APPLICABLE"
  | some [] => rulePass st "DUPLICATE_CLAIM_NOT_APPLICABLE"
  | some hs =>
    let ocr := ai.ocr_data
    let this_plate :=
      normPlate (strDefault ocr.plate_text (strD policy.vehicle_registration))
    let window_days := cfg.DUPLICATE_CLAIM_WINDOW_DAYS
    let recent_open := (hs.filter (fun prior =>
      let prior_status := (strD prior.status).toLower
      prior_status == "pending" || prior_status == "processing")).map
        (fun prior => prior.claim_id)
    let same_plate_recent := (hs.filter (fun prior =>
      let prior_status := (strD prior.status).toLower
      let prior_plate := normPlate (strD prior.vehicle_registration)
      let age_days := historyAgeDays now prior.created_at
      !this_plate.isEmpty && prior_plate == this_plate &&
        age_days ≤ window_days && prior_status != "rejected")).map
        (fun prior => prior.claim_id)
    let st :=
      if !recent_open.isEmpty then
        ruleFail cfg st "DUPLICATE_OPEN_CLAIM"
          "Duplicate Claim Guard - Open Claim (v2 NEW)"
          "Policy already has open or processing claims. New claim flagged for review."
          "HIGH" "E"
      else st
    let st :=
      if !same_plate_recent.isEmpty then
        ruleFail cfg st "DUPLICATE_PLATE_RECENT"
          "Duplicate Claim Guard - Recent Plate (v2 NEW)"
          "Plate has recent claims within the duplicate window. Possible staged-accident fraud ring."
          "HIGH" "E"
      else st
    if recent_open.isEmpty && same_plate_recent.isEmpty then
      rulePass st "NO_DUPLICATE_CLAIMS"
    else st

/-! ## Final decision -/

/-- `critical_count` in `_make_final_decision`. -/
def criticalCount (st : EngineState) : Nat :=
  (st.failed.filter (fun r => r.severity == "CRITICAL")).length

/-- `high_count` in `_make_final_decision`. -/
def highCount (st : EngineState) : Nat :=
  (st.failed.filter (fun r => r.severity == "HIGH")).length

/-- `final_score`: the raw score with the compounding multiplier when
`critical_count + high_count` reaches the compound threshold. -/
def finalScore (cfg : RuleConfig) (st : EngineState) : Rat :=
  if criticalCount st + highCount st ≥ cfg.COMPOUND_FAILURE_THRESHOLD then
    st.raw_score * cfg.COMPOUND_MULTIPLIER
  else st.raw_score

/-- `raw_pass_rate`: fraction of recorded outcomes that passed
(1 when no outcomes were recorded). -/
def passRate (st : EngineState) : Rat :=
  let max_possible := st.passed.length + st.failed.length
  if max_possible = 0 then 1
  else (st.passed.length : Rat) / (max_possible : Rat)

/-- `confidence_score = max(0, raw_pass_rate - min(final_score/50, 1)) * 100`. -/
def confidenceOf (cfg : RuleConfig) (st : EngineState) : Rat :=
  max 0 (passRate st - min (finalScore cfg st / 50) 1) * 100

/-- `self._build(...)`. -/
def build (st : EngineState) (status reason confidence_level : String)
    (confidence_score : Rat) (auto_approved review monitor : Bool)
    (score : Rat) : VerificationResult :=
  { status := status
    decision_reason := reason
    confidence_level := confidence_level
    confidence_score := confidence_score
    auto_approved := auto_approved
    requires_human_review := review
    requires_monitoring := monitor
    severity_score := score
    passed_checks := st.passed
    failed_checks := st.failed }

/-- `_make_final_decision`: no failures → APPROVED; any CRITICAL →
REJECTED; score ≥ reject threshold → REJECTED; score ≥ flag threshold →
FLAGGED; else APPROVED with monitoring. -/
def make_final_decision (cfg : RuleConfig) (st : EngineState) : VerificationResult :=
  if st.failed.isEmpty then
    build st "APPROVED" "All verification checks passed." "HIGH"
      (confidenceOf cfg st) true false false (finalScore cfg st)
  else if 0 < criticalCount st then
    build st "REJECTED" "Critical fraud indicators detected." "HIGH"
      (confidenceOf cfg st) false true false (finalScore cfg st)
  else if finalScore cfg st ≥ cfg.AUTO_REJECT_SCORE_THRESHOLD then
    build st "REJECTED" "Multiple fraud indicators accumulated." "HIGH"
      (confidenceOf cfg st) false true false (finalScore cfg st)
  else if finalScore cfg st ≥ cfg.FLAG_FOR_REVIEW_SCORE_THRESHOLD then
    build st "FLAGGED" "Verification issues require human review." "MEDIUM"
      (confidenceOf cfg st) false true false (finalScore cfg st)
  else
    build st "APPROVED" "Minor verification issues within acceptable range." "MEDIUM"
      (confidenceOf cfg st) true false true (finalScore cfg st)

/-- Checks 2 through 16 in phase order, applied to the state left by
check 1. -/
def run_rest_checks (cfg : RuleConfig) (claim_amount : Int) (ai : AiAnalysis)
    (policy : PolicyData) (history : Option (List HistoryEntry)) (today : Int)
    (st : EngineState) : EngineState :=
  let st := check_2_metadata_verification cfg ai policy st
  let st := check_3_reverse_image_search cfg ai st
  let st := check_4_digital_forgery cfg ai st
  let st := check_5_vehicle_match cfg ai policy st
  let st := check_6_license_plate_match cfg ai policy st
  let st := check_7_chase_number_match cfg ai policy st
  let st := check_8_pre_existing_damage cfg ai st
  let st := check_9_yolo_damage_corroboration cfg ai st
  let st := check_10_totalled_vehicle_markers cfg ai st
  let st := check_11_narrative_consistency cfg ai st
  let st := check_12_multi_image_consistency cfg ai st
  let st := check_13_amount_threshold cfg claim_amount st
  let st := check_14_damage_cost_sanity cfg claim_amount ai st
  let st := check_15_policy_active_and_coverage cfg policy claim_amount today st
  check_16_duplicate_claim_guard cfg ai policy history today st

/-- All sixteen checks in phase order A → E. -/
def run_checks (cfg : RuleConfig) (claim_amount : Int) (ai : AiAnalysis)
    (policy : PolicyData) (history : Option (List HistoryEntry)) (today : Int)
    (st : EngineState) : EngineState :=
  run_rest_checks cfg claim_amount ai policy history today
    (check_1_image_quality_gate cfg ai st)

/-- `verify_claim` run on an engine whose accumulator holds `prev`
(the method begins with `self._reset()`), with `today` the wall-clock
date consulted by checks 15 and 16. -/
def verify_claim_from (prev : EngineState) (cfg : RuleConfig)
    (claim_amount : Int) (ai : AiAnalysis) (policy : PolicyData)
    (history : Option (List HistoryEntry)) (today : Int) : VerificationResult :=
  make_final_decision cfg
    (run_checks cfg claim_amount ai policy history today (reset prev))
/-- `verify_claim` on a fresh engine. -/
def verify_claim (cfg : RuleConfig) (claim_amount : Int) (ai : AiAnalysis)
    (policy : PolicyData) (history : Option (List HistoryEntry))
    (today : Int) : VerificationResult :=
  verify_claim_from {} cfg claim_amount ai policy history today

/-! ## Repair cost estimator (`repair_estimator_service.py`) -/

/-- Python `round` (banker's rounding: ties go to the even integer). -/
def pyRound (q : Rat) : Int :=
  let f := ⌊q⌋
  let frac := q - (f : Rat)
  if frac < 1/2 then f
  else if frac > 1/2 then f + 1
  else if f % 2 = 0 then f else f + 1

/-- `USD_TO_INR`. -/
def USD_TO_INR : Rat := 84

/-- One entry of `PART_PRICE_TABLE_USD`. -/
structure PartInfo where
  name : String
  usdMin : Int
  usdMax : Int
  icon : String
deriving Repr, DecidableEq

/-- `PART_PRICE_TABLE_USD`, in source (insertion) order — the order
matters for the substring-fallback loop in `_resolve_panel_key`. -/
def PART_PRICE_TABLE_USD : List (String × PartInfo) :=
  [("front_bumper", ⟨"Front Bumper", 300, 900, "🚗"⟩),
   ("rear_bumper", ⟨"Rear Bumper", 250, 800, "🚗"⟩),
   ("hood", ⟨"Hood", 400, 1200, "🔧"⟩),
   ("trunk", ⟨"Trunk Lid", 300, 900, "🔧"⟩),
   ("trunk_lid", ⟨"Trunk Lid", 300, 900, "🔧"⟩),
   ("fender_fl", ⟨"Front Left Fender", 200, 600, "🔩"⟩),
   ("fender_fr", ⟨"Front Right Fender", 200, 600, "🔩"⟩),
   ("fender_rl", ⟨"Rear Left Fender", 250, 700, "🔩"⟩),
   ("fender_rr", ⟨"Rear Right Fender", 250, 700, "🔩"⟩),
   ("door_fl", ⟨"Front Left Door", 300, 900, "🚪"⟩),
   ("door_fr", ⟨"Front Right Door", 300, 900, "🚪"⟩),
   ("door_rl", ⟨"Rear Left Door", 300, 900, "🚪"⟩),
   ("door_rr", ⟨"Rear Right Door", 300, 900, "🚪"⟩),
   ("roof", ⟨"Roof Panel", 800, 2500, "🏠"⟩),
   ("quarter_panel_l", ⟨"Left Quarter Panel", 400, 1200, "🔩"⟩),
   ("quarter_panel_r", ⟨"Right Quarter Panel", 400, 1200, "🔩"⟩),
   ("windshield", ⟨"Windshield", 200, 600, "🪟"⟩),
   ("rear_windshield", ⟨"Rear Windshield", 150, 500, "🪟"⟩),
   ("window_fl", ⟨"Front Left Window", 100, 350, "🪟"⟩),
   ("window_fr", ⟨"Front Right Window", 100, 350, "🪟"⟩),
   ("headlight_l", ⟨"Left Headlight Assembly", 150, 500, "💡"⟩),
   ("headlight_r", ⟨"Right Headlight Assembly", 150, 500, "💡"⟩),
   ("taillight_l", ⟨"Left Taillight Assembly", 100, 400, "💡"⟩),
   ("taillight_r", ⟨"Right Taillight Assembly", 100, 400, "💡"⟩),
   ("grille", ⟨"Front Grille", 100, 400, "🔲"⟩),
   ("side_mirror_l", ⟨"Left Side Mirror", 80, 250, "🪞"⟩),
   ("side_mirror_r", ⟨"Right Side Mirror", 80, 250, "🪞"⟩),
   ("radiator", ⟨"Radiator", 200, 600, "⚙️"⟩),
   ("frame", ⟨"Frame / Chassis", 1000, 5000, "⚙️"⟩),
   ("engine", ⟨"Engine Components", 1500, 8000, "⚙️"⟩),
   ("suspension", ⟨"Suspension", 300, 1500, "⚙️"⟩),
   ("axle", ⟨"Axle", 400, 1200, "⚙️"⟩)]

/-- `PANEL_ALIASES`. -/
def PANEL_ALIASES : List (String × String) :=
  [("bumper_front", "front_bumper"),
   ("bumper_rear", "rear_bumper"),
   ("front bumper", "front_bumper"),
   ("rear bumper", "rear_bumper"),
   ("bonnet", "hood"),
   ("front_left_door", "door_fl"),
   ("front_right_door", "door_fr"),
   ("rear_left_door", "door_rl"),
   ("rear_right_door", "door_rr"),
   ("front_left_fender", "fender_fl"),
   ("front_right_fender", "fender_fr"),
   ("left_fender", "fender_fl"),
   ("right_fender", "fender_fr"),
   ("left_quarter_panel", "quarter_panel_l"),
   ("right_quarter_panel", "quarter_panel_r"),
   ("left_headlight", "headlight_l"),
   ("right_headlight", "headlight_r"),
   ("left_taillight", "taillight_l"),
   ("right_taillight", "taillight_r"),
   ("left_mirror", "side_mirror_l"),
   ("right_mirror", "side_mirror_r"),
   ("front_windshield", "windshield"),
   ("back_windshield", "rear_windshield")]

/-- Price-table lookup by canonical key. -/
def tableLookup (key : String) : Option PartInfo :=
  (PART_PRICE_TABLE_USD.find? (fun p => p.1 == key)).map Prod.snd

/-- `_resolve_panel_key`: exact match, then alias lookup, then two-way
substring containment against the table keys (first match wins). -/
def resolve_panel_key (panel : String) : Option String :=
  if panel.isEmpty then none
  else
    let key := (panel.trim.toLower).replace " " "_"
    if (tableLookup key).isSome then some key
    else
      match PANEL_ALIASES.find? (fun p => p.1 == key) with
      | some p => some p.2
      | none =>
        (PART_PRICE_TABLE_USD.find?
          (fun p => strIn key p.1 || strIn p.1 key)).map Prod.fst

/-- One breakdown row of the estimate. -/
structure BreakdownItem where
  panel_key : String
  part : String
  icon : String
  usd_min : Int
  usd_max : Int
  inr_min : Int
  inr_max : Int
deriving Repr, DecidableEq

/-- The estimator's result dictionary. -/
structure CostEstimate where
  breakdown : List BreakdownItem
  total_usd_min : Int
  total_usd_max : Int
  total_inr_min : Int
  total_inr_max : Int
  usd_to_inr_rate : Rat
  unrecognized_panels : List String
  vehicle_info : String
deriving Repr, DecidableEq

/-- `_build_vehicle_info`. -/
def build_vehicle_info (make model year : Option String) : String :=
  let parts := ([year, make, model].filterMap id).filter (fun p => !p.isEmpty)
  if !parts.isEmpty then String.intercalate " " parts else "Unknown Vehicle"

/-- The loop body of `estimate_repair_cost`: accumulate breakdown rows,
unrecognized panels and the set of already-seen canonical keys.
A key that resolves in the table never misses the lookup (all alias
targets are table keys); the impossible miss is mapped to a zero row. -/
def estimateFold (usd_to_inr : Rat) :
    List String → List BreakdownItem × List String × List String →
    List BreakdownItem × List String × List String
  | [], acc => acc
  | panel :: rest, (breakdown, unrecognized, seen) =>
    match resolve_panel_key panel with
    | some key =>
      if !seen.contains key then
        let info := (tableLookup key).getD ⟨"", 0, 0, ""⟩
        let inr_min := pyRound ((info.usdMin : Rat) * usd_to_inr)
        let inr_max := pyRound ((info.usdMax : Rat) * usd_to_inr)
        estimateFold usd_to_inr rest
          (breakdown ++ [⟨key, info.name, info.icon, info.usdMin, info.usdMax,
            inr_min, inr_max⟩], unrecognized, seen ++ [key])
      else estimateFold usd_to_inr rest (breakdown, unrecognized, seen)
    | none =>
      estimateFold usd_to_inr rest (breakdown, unrecognized ++ [panel], seen)

/-- `estimate_repair_cost`. -/
def estimate_repair_cost (damaged_panels : List String)
    (vehicle_make : Option String := none)
    (vehicle_model : Option String := none)
    (vehicle_year : Option String := none)
    (usd_to_inr : Rat := USD_TO_INR) : CostEstimate :=
  if damaged_panels.isEmpty then
    { breakdown := []
      total_usd_min := 0
      total_usd_max := 0
      total_inr_min := 0
      total_inr_max := 0
      usd_to_inr_rate := usd_to_inr
      unrecognized_panels := []
      vehicle_info := build_vehicle_info vehicle_make vehicle_model vehicle_year }
  else
    let (breakdown, unrecognized, _) :=
      estimateFold usd_to_inr damaged_panels ([], [], [])
    let total_usd_min := (breakdown.map (fun p => p.usd_min)).sum
    let total_usd_max := (breakdown.map (fun p => p.usd_max)).sum
    { breakdown := breakdown
      total_usd_min := total_usd_min
      total_usd_max := total_usd_max
      total_inr_min := pyRound ((total_usd_min : Rat) * usd_to_inr)
      total_inr_max := pyRound ((total_usd_max : Rat) * usd_to_inr)
      usd_to_inr_rate := usd_to_inr
      unrecognized_panels := unrecognized
      vehicle_info := build_vehicle_info vehicle_make vehicle_model vehicle_year }

/-! ## Step specifications for the sixteen checks

`StepSpec ids lo hi st st'` says a check turned `st` into `st'` by
appending between `lo` and `hi` recorded outcomes in total, appending
only failures whose rule ids lie in `ids`, and never decreasing the raw
score (for the default configuration's non-negative weights). -/

def StepSpec (ids : List String) (lo hi : Nat) (st st' : EngineState) : Prop :=
  ∃ l lp, st'.failed = st.failed ++ l ∧ st'.passed = st.passed ++ lp ∧
    (∀ f ∈ l, f.rule_id ∈ ids) ∧ st.raw_score ≤ st'.raw_score ∧
    lo ≤ l.length + lp.length ∧ l.length + lp.length ≤ hi

/-- Every rule id checks 2–16 can append to `failed`.  The three ids of
check 1 (`SCREEN_RECAPTURE`, `IMAGE_BLURRY`, `IMAGE_LOW_QUALITY`) are
absent from this list. -/
def restCheckIds : List String :=
  ["METADATA_MISSING", "GPS_LOCATION_MISMATCH", "GPS_MISSING",
   "STOCK_PHOTO_DETECTED", "STOCK_PHOTO_SUSPICIOUS",
   "DIGITAL_MANIPULATION",
   "VEHICLE_LOW_CONFIDENCE", "VEHICLE_MISMATCH", "VEHICLE_COLOR_MISMATCH",
   "PLATE_NOT_DETECTED", "PLATE_LOW_CONFIDENCE", "PLATE_MISMATCH",
   "CHASE_NUMBER_LOW_CONFIDENCE", "CHASE_NUMBER_MISMATCH",
   "PRE_EXISTING_DAMAGE",
   "YOLO_AI_DAMAGE_DISAGREEMENT", "YOLO_AI_SEVERITY_GAP",
   "TOTALED_NO_PHYSICAL_MARKERS",
   "NARRATIVE_MISMATCH",
   "MULTI_IMAGE_INCONSISTENCY",
   "AMOUNT_EXCEEDS_THRESHOLD",
   "CLAIM_NO_DAMAGE_DETECTED", "CLAIM_INFLATED", "CLAIM_SUSPICIOUSLY_LOW",
   "POLICY_INACTIVE", "POLICY_EXPIRED_OR_NOT_STARTED", "CLAIM_EXCEEDS_COVERAGE",
   "DUPLICATE_OPEN_CLAIM", "DUPLICATE_PLATE_RECENT"]

/-- Every rule id any of the sixteen checks can append to `failed`. -/
def allCheckIds : List String :=
  ["SCREEN_RECAPTURE", "IMAGE_BLURRY", "IMAGE_LOW_QUALITY"] ++ restCheckIds

/-- An active policy whose plate, make and model are populated
(the policy side of spec Scenario A). -/
def policyScenA : PolicyData where
  vehicle_make := some "Honda"
  vehicle_model := some "City"
  vehicle_registration := some "KL-07-CU-7475"
  status := some "active"

/-- A fact bundle that is entirely default except for a screen-recapture
flag (spec Scenario B). -/
def aiScreenOnly : AiAnalysis :=
  { forensic_indicators := { is_screen_recapture := true } }

/-- A fact bundle on which every check passes against `policyScenA`. -/
def aiCleanRun : AiAnalysis where
  exif_metadata :=
    { timestamp := some "2024-01-01"
      gps_coordinates := { latitude := some 10, longitude := some 76 } }
  ocr_data := { plate_text := some "KL07CU7475", confidence := some (9/10) }
  vehicle_identification :=
    { make := some "Honda"
      model := some "City"
      detected_confidence := some (9/10) }
  narrative_consistency := { visual_evidence_matches := true }

/-- `policyScenA` with an end date at day 10 (for the clock-dependence
counterexample). -/
def policyEndDay10 : PolicyData where
  vehicle_make := some "Honda"
  vehicle_model := some "City"
  vehicle_registration := some "KL07CU7475"
  status := some "active"
  end_date := some (some 10)

/-- A damage assessment with a minor severity, an AI minimum estimate of
1000 and no AI maximum estimate (for the Check 14 counterexample). -/
def aiMinNoMax : AiAnalysis :=
  { damage_assessment := { ai_severity := some "minor", ai_cost_min := some 1000 } }

/-- A damage assessment with minor severity, AI estimates 1000–3000
(for the Check 14 under-declaration witness). -/
def aiMinAndMax : AiAnalysis where
  damage_assessment :=
    { ai_severity := some "minor"
      ai_cost_min := some 1000
      ai_cost_max := some 3000 }

theorem defaultWeight_nonneg (s : String) :
    0 ≤ severityWeight defaultRuleConfig.SEVERITY_WEIGHTS s := by
  unfold severityWeight
  cases h : defaultRuleConfig.SEVERITY_WEIGHTS.find? (fun p => p.1 == s) with
  | none => simp
  | some p =>
    have hp := List.mem_of_find?_eq_some h
    fin_cases hp <;> norm_num

theorem spec_fail {st : EngineState} {ids : List String} {i n r s p : String}
    (h : i ∈ ids) : StepSpec ids 1 1 st (ruleFail defaultRuleConfig st i n r s p) := by
  refine ⟨[⟨i, n, r, s, p⟩], [], by simp [ruleFail], by simp [ruleFail], ?_, ?_,
    by simp, by simp⟩
  · intro f hf; simp at hf; subst hf; exact h
  · simp only [ruleFail]
    exact le_add_of_nonneg_right (defaultWeight_nonneg s)

theorem spec_pass {st : EngineState} {ids : List String} {i : String} :
    StepSpec ids 1 1 st (rulePass st i) :=
  ⟨[], [i], by simp [rulePass], by simp [rulePass], by simp, by simp [rulePass],
    by simp, by simp⟩

theorem spec_id {st : EngineState} {ids : List String} : StepSpec ids 0 0 st st :=
  ⟨[], [], by simp, by simp, by simp, le_refl _, by simp, by simp⟩

theorem spec_bump {st : EngineState} {ids : List String} {c : Rat} (hc : 0 ≤ c) :
    StepSpec ids 0 0 st { st with raw_score := st.raw_score + c } :=
  ⟨[], [], by simp, by simp, by simp, le_add_of_nonneg_right hc, by simp, by simp⟩

theorem spec_trans {ids : List String} {a b c d : Nat} {s1 s2 s3 : EngineState}
    (h1 : StepSpec ids a b s1 s2) (h2 : StepSpec ids c d s2 s3) :
    StepSpec ids (a + c) (b + d) s1 s3 := by
  obtain ⟨l1, lp1, hf1, hp1, hi1, hr1, hlo1, hhi1⟩ := h1
  obtain ⟨l2, lp2, hf2, hp2, hi2, hr2, hlo2, hhi2⟩ := h2
  refine ⟨l1 ++ l2, lp1 ++ lp2, ?_, ?_, ?_, le_trans hr1 hr2, ?_, ?_⟩
  · rw [hf2, hf1, List.append_assoc]
  · rw [hp2, hp1, List.append_assoc]
  · intro f hf
    rcases List.mem_append.mp hf with h | h
    · exact hi1 f h
    · exact hi2 f h
  · simp only [List.length_append]; omega
  · simp only [List.length_append]; omega

theorem spec_relax {ids : List String} {a b a' b' : Nat} {s1 s2 : EngineState}
    (h : StepSpec ids a b s1 s2) (hlo : a' ≤ a) (hhi : b ≤ b') :
    StepSpec ids a' b' s1 s2 := by
  obtain ⟨l, lp, hf, hp, hi, hr, h1, h2⟩ := h
  exact ⟨l, lp, hf, hp, hi, hr, le_trans hlo h1, le_trans h2 hhi⟩

theorem spec_widen {ids ids' : List String} {a b : Nat} {s1 s2 : EngineState}
    (h : StepSpec ids a b s1 s2) (hsub : ∀ x ∈ ids, x ∈ ids') :
    StepSpec ids' a b s1 s2 := by
  obtain ⟨l, lp, hf, hp, hi, hr, h1, h2⟩ := h
  exact ⟨l, lp, hf, hp, fun f hf2 => hsub _ (hi f hf2), hr, h1, h2⟩


/-! ## Per-check step specifications -/

theorem check_1_spec (ai : AiAnalysis) (st : EngineState) :
    StepSpec ["SCREEN_RECAPTURE", "IMAGE_BLURRY", "IMAGE_LOW_QUALITY"] 1 1 st
      (check_1_image_quality_gate defaultRuleConfig ai st) := by
  unfold check_1_image_quality_gate
  try dsimp only
  repeat' split
  all_goals first
  | exact spec_relax spec_pass (by norm_num) (by norm_num)
  | exact spec_relax (spec_fail (by decide)) (by norm_num) (by norm_num)

theorem check_2_spec (ai : AiAnalysis) (policy : PolicyData) (st : EngineState) :
    StepSpec ["METADATA_MISSING", "GPS_LOCATION_MISMATCH", "GPS_MISSING"] 2 2 st
      (check_2_metadata_verification defaultRuleConfig ai policy st) := by
  unfold check_2_metadata_verification
  try dsimp only
  repeat' split
  all_goals first
  | exact spec_relax (spec_trans (spec_fail (by decide)) (spec_fail (by decide))) (by norm_num) (by norm_num)
  | exact spec_relax (spec_trans (spec_fail (by decide)) spec_pass) (by norm_num) (by norm_num)
  | exact spec_relax (spec_trans spec_pass (spec_fail (by decide))) (by norm_num) (by norm_num)
  | exact spec_relax (spec_trans spec_pass spec_pass) (by norm_num) (by norm_num)

theorem check_3_spec (ai : AiAnalysis) (st : EngineState) :
    StepSpec ["STOCK_PHOTO_DETECTED", "STOCK_PHOTO_SUSPICIOUS"] 1 1 st
      (check_3_reverse_image_search defaultRuleConfig ai st) := by
  unfold check_3_reverse_image_search
  try dsimp only
  repeat' split
  all_goals first
  | exact spec_relax spec_pass (by norm_num) (by norm_num)
  | exact spec_relax (spec_fail (by decide)) (by norm_num) (by norm_num)

theorem check_4_spec (ai : AiAnalysis) (st : EngineState) :
    StepSpec ["DIGITAL_MANIPULATION"] 1 1 st
      (check_4_digital_forgery defaultRuleConfig ai st) := by
  unfold check_4_digital_forgery
  try dsimp only
  repeat' split
  all_goals first
  | exact spec_relax spec_pass (by norm_num) (by norm_num)
  | exact spec_relax (spec_fail (by decide)) (by norm_num) (by norm_num)

theorem check_5_spec (ai : AiAnalysis) (policy : PolicyData) (st : EngineState) :
    StepSpec ["VEHICLE_LOW_CONFIDENCE", "VEHICLE_MISMATCH", "VEHICLE_COLOR_MISMATCH"] 1 3 st
      (check_5_vehicle_match defaultRuleConfig ai policy st) := by
  unfold check_5_vehicle_match
  try dsimp only
  repeat' split
  all_goals first
  | exact spec_relax spec_pass (by norm_num) (by norm_num)
  | exact spec_relax (spec_fail (by decide)) (by norm_num) (by norm_num)
  | exact spec_relax (spec_trans (spec_fail (by decide)) (spec_fail (by decide))) (by norm_num) (by norm_num)
  | exact spec_relax (spec_trans (spec_fail (by decide)) spec_pass) (by norm_num) (by norm_num)
  | exact spec_relax (spec_trans spec_pass (spec_fail (by decide))) (by norm_num) (by norm_num)
  | exact spec_relax (spec_trans (spec_trans (spec_fail (by decide)) (spec_fail (by decide))) (spec_fail (by decide))) (by norm_num) (by norm_num)
  | exact spec_relax (spec_trans (spec_trans (spec_fail (by decide)) spec_pass) (spec_fail (by decide))) (by norm_num) (by norm_num)

theorem check_6_spec (ai : AiAnalysis) (policy : PolicyData) (st : EngineState) :
    StepSpec ["PLATE_NOT_DETECTED", "PLATE_LOW_CONFIDENCE", "PLATE_MISMATCH"] 1 2 st
      (check_6_license_plate_match defaultRuleConfig ai policy st) := by
  unfold check_6_license_plate_match
  try dsimp only
  repeat' split
  all_goals first
  | exact spec_relax spec_pass (by norm_num) (by norm_num)
  | exact spec_relax (spec_fail (by decide)) (by norm_num) (by norm_num)
  | exact spec_relax (spec_trans (spec_fail (by decide)) (spec_fail (by decide))) (by norm_num) (by norm_num)
  | exact spec_relax (spec_trans (spec_fail (by decide)) spec_pass) (by norm_num) (by norm_num)
  | exact spec_relax (spec_trans spec_pass (spec_fail (by decide))) (by norm_num) (by norm_num)

theorem check_7_spec (ai : AiAnalysis) (policy : PolicyData) (st : EngineState) :
    StepSpec ["CHASE_NUMBER_LOW_CONFIDENCE", "CHASE_NUMBER_MISMATCH"] 1 2 st
      (check_7_chase_number_match defaultRuleConfig ai policy st) := by
  unfold check_7_chase_number_match
  try dsimp only
  repeat' split
  all_goals first
  | exact spec_relax spec_pass (by norm_num) (by norm_num)
  | exact spec_relax (spec_fail (by decide)) (by norm_num) (by norm_num)
  | exact spec_relax (spec_trans (spec_fail (by decide)) (spec_fail (by decide))) (by norm_num) (by norm_num)
  | exact spec_relax (spec_trans (spec_fail (by decide)) spec_pass) (by norm_num) (by norm_num)
  | exact spec_relax (spec_trans spec_pass (spec_fail (by decide))) (by norm_num) (by norm_num)

theorem check_8_spec (ai : AiAnalysis) (st : EngineState) :
    StepSpec ["PRE_EXISTING_DAMAGE"] 1 1 st
      (check_8_pre_existing_damage defaultRuleConfig ai st) := by
  unfold check_8_pre_existing_damage
  try dsimp only
  repeat' split
  all_goals first
  | exact spec_relax spec_pass (by norm_num) (by norm_num)
  | exact spec_relax (spec_fail (by decide)) (by norm_num) (by norm_num)

theorem check_9_spec (ai : AiAnalysis) (st : EngineState) :
    StepSpec ["YOLO_AI_DAMAGE_DISAGREEMENT", "YOLO_AI_SEVERITY_GAP"] 1 1 st
      (check_9_yolo_damage_corroboration defaultRuleConfig ai st) := by
  unfold check_9_yolo_damage_corroboration
  try dsimp only
  repeat' split
  all_goals first
  | exact spec_relax spec_pass (by norm_num) (by norm_num)
  | exact spec_relax (spec_fail (by decide)) (by norm_num) (by norm_num)
  | exact spec_relax (spec_trans (spec_fail (by decide)) (spec_bump (by decide))) (by norm_num) (by norm_num)

theorem check_10_spec (ai : AiAnalysis) (st : EngineState) :
    StepSpec ["TOTALED_NO_PHYSICAL_MARKERS"] 1 1 st
      (check_10_totalled_vehicle_markers defaultRuleConfig ai st) := by
  unfold check_10_totalled_vehicle_markers
  try dsimp only
  repeat' split
  all_goals first
  | exact spec_relax spec_pass (by norm_num) (by norm_num)
  | exact spec_relax (spec_fail (by decide)) (by norm_num) (by norm_num)

theorem check_11_spec (ai : AiAnalysis) (st : EngineState) :
    StepSpec ["NARRATIVE_MISMATCH"] 1 1 st
      (check_11_narrative_consistency defaultRuleConfig ai st) := by
  unfold check_11_narrative_consistency
  try dsimp only
  repeat' split
  all_goals first
  | exact spec_relax spec_pass (by norm_num) (by norm_num)
  | exact spec_relax (spec_fail (by decide)) (by norm_num) (by norm_num)

theorem check_12_spec (ai : AiAnalysis) (st : EngineState) :
    StepSpec ["MULTI_IMAGE_INCONSISTENCY"] 1 1 st
      (check_12_multi_image_consistency defaultRuleConfig ai st) := by
  unfold check_12_multi_image_consistency
  try dsimp only
  repeat' split
  all_goals first
  | exact spec_relax spec_pass (by norm_num) (by norm_num)
  | exact spec_relax (spec_fail (by decide)) (by norm_num) (by norm_num)

theorem check_13_spec (claim_amount : Int) (st : EngineState) :
    StepSpec ["AMOUNT_EXCEEDS_THRESHOLD"] 1 1 st
      (check_13_amount_threshold defaultRuleConfig claim_amount st) := by
  unfold check_13_amount_threshold
  try dsimp only
  repeat' split
  all_goals first
  | exact spec_relax spec_pass (by norm_num) (by norm_num)
  | exact spec_relax (spec_fail (by decide)) (by norm_num) (by norm_num)

theorem check_14_spec (claim_amount : Int) (ai : AiAnalysis) (st : EngineState) :
    StepSpec ["CLAIM_NO_DAMAGE_DETECTED", "CLAIM_INFLATED", "CLAIM_SUSPICIOUSLY_LOW"] 1 1 st
      (check_14_damage_cost_sanity defaultRuleConfig claim_amount ai st) := by
  unfold check_14_damage_cost_sanity
  try dsimp only
  repeat' split
  all_goals first
  | exact spec_relax spec_pass (by norm_num) (by norm_num)
  | exact spec_relax (spec_fail (by decide)) (by norm_num) (by norm_num)

theorem check_15_spec (policy : PolicyData) (claim_amount : Int) (today : Int)
    (st : EngineState) :
    StepSpec ["POLICY_INACTIVE", "POLICY_EXPIRED_OR_NOT_STARTED", "CLAIM_EXCEEDS_COVERAGE"] 3 3 st
      (check_15_policy_active_and_coverage defaultRuleConfig policy claim_amount today st) := by
  unfold check_15_policy_active_and_coverage
  try dsimp only
  repeat' split
  all_goals first
  | exact spec_relax (spec_trans (spec_trans (spec_fail (by decide)) (spec_fail (by decide))) (spec_fail (by decide))) (by norm_num) (by norm_num)
  | exact spec_relax (spec_trans (spec_trans (spec_fail (by decide)) (spec_fail (by decide))) spec_pass) (by norm_num) (by norm_num)
  | exact spec_relax (spec_trans (spec_trans (spec_fail (by decide)) spec_pass) (spec_fail (by decide))) (by norm_num) (by norm_num)
  | exact spec_relax (spec_trans (spec_trans (spec_fail (by decide)) spec_pass) spec_pass) (by norm_num) (by norm_num)
  | exact spec_relax (spec_trans (spec_trans spec_pass (spec_fail (by decide))) (spec_fail (by decide))) (by norm_num) (by norm_num)
  | exact spec_relax (spec_trans (spec_trans spec_pass (spec_fail (by decide))) spec_pass) (by norm_num) (by norm_num)
  | exact spec_relax (spec_trans (spec_trans spec_pass spec_pass) (spec_fail (by decide))) (by norm_num) (by norm_num)
  | exact spec_relax (spec_trans (spec_trans spec_pass spec_pass) spec_pass) (by norm_num) (by norm_num)

theorem check_16_spec (ai : AiAnalysis) (policy : PolicyData)
    (history : Option (List HistoryEntry)) (now : Int) (st : EngineState) :
    StepSpec ["DUPLICATE_OPEN_CLAIM", "DUPLICATE_PLATE_RECENT"] 1 2 st
      (check_16_duplicate_claim_guard defaultRuleConfig ai policy history now st) := by
  unfold check_16_duplicate_claim_guard
  try dsimp only
  split
  · exact spec_relax spec_pass (by norm_num) (by norm_num)
  · exact spec_relax spec_pass (by norm_num) (by norm_num)
  · split
    · rename_i hc3
      rw [Bool.and_eq_true] at hc3
      obtain ⟨h1, h2⟩ := hc3
      simp only [h1, h2, Bool.not_true, Bool.false_eq_true, if_false]
      exact spec_relax spec_pass (by norm_num) (by norm_num)
    · rename_i hc3
      split
      · rename_i hspr
        split
        · rename_i hro
          exact spec_relax (spec_trans (spec_fail (by decide)) (spec_fail (by decide))) (by norm_num) (by norm_num)
        · rename_i hro
          exact spec_relax (spec_fail (by decide)) (by norm_num) (by norm_num)
      · rename_i hspr
        split
        · rename_i hro
          exact spec_relax (spec_fail (by decide)) (by norm_num) (by norm_num)
        · rename_i hro
          exfalso
          simp at hro hspr
          exact hc3 (by simp; exact ⟨hro, hspr⟩)


/-! ## Chained step specifications and decision-level lemmas -/

/-- Checks 2–16 append between 18 and 23 outcomes, all failure ids drawn
from `restCheckIds`, never decreasing the raw score. -/
theorem run_rest_checks_spec (claim_amount : Int) (ai : AiAnalysis)
    (policy : PolicyData) (history : Option (List HistoryEntry)) (today : Int)
    (st : EngineState) :
    StepSpec restCheckIds 18 23 st
      (run_rest_checks defaultRuleConfig claim_amount ai policy history today st) := by
  unfold run_rest_checks
  dsimp only
  exact spec_relax
    (spec_trans (spec_trans (spec_trans (spec_trans (spec_trans (spec_trans
      (spec_trans (spec_trans (spec_trans (spec_trans (spec_trans (spec_trans
      (spec_trans (spec_trans
        (spec_widen (check_2_spec ai policy st) (by decide))
        (spec_widen (check_3_spec ai _) (by decide)))
        (spec_widen (check_4_spec ai _) (by decide)))
        (spec_widen (check_5_spec ai policy _) (by decide)))
        (spec_widen (check_6_spec ai policy _) (by decide)))
        (spec_widen (check_7_spec ai policy _) (by decide)))
        (spec_widen (check_8_spec ai _) (by decide)))
        (spec_widen (check_9_spec ai _) (by decide)))
        (spec_widen (check_10_spec ai _) (by decide)))
        (spec_widen (check_11_spec ai _) (by decide)))
        (spec_widen (check_12_spec ai _) (by decide)))
        (spec_widen (check_13_spec claim_amount _) (by decide)))
        (spec_widen (check_14_spec claim_amount ai _) (by decide)))
        (spec_widen (check_15_spec policy claim_amount today _) (by decide)))
        (spec_widen (check_16_spec ai policy history today _) (by decide)))
    (by norm_num) (by norm_num)

/-- All sixteen checks append between 19 and 24 outcomes, all failure
ids drawn from `allCheckIds`, never decreasing the raw score. -/
theorem run_checks_spec (claim_amount : Int) (ai : AiAnalysis)
    (policy : PolicyData) (history : Option (List HistoryEntry)) (today : Int)
    (st : EngineState) :
    StepSpec allCheckIds 19 24 st
      (run_checks defaultRuleConfig claim_amount ai policy history today st) := by
  unfold run_checks
  exact spec_relax
    (spec_trans (spec_widen (check_1_spec ai st) (by decide))
      (spec_widen (run_rest_checks_spec claim_amount ai policy history today _)
        (by decide)))
    (by norm_num) (by norm_num)

/-- The result's `failed_checks` list is the accumulator's `failed`. -/
theorem mfd_failed (cfg : RuleConfig) (st : EngineState) :
    (make_final_decision cfg st).failed_checks = st.failed := by
  unfold make_final_decision
  repeat' split
  all_goals simp [build]

/-- The result's `passed_checks` list is the accumulator's `passed`. -/
theorem mfd_passed (cfg : RuleConfig) (st : EngineState) :
    (make_final_decision cfg st).passed_checks = st.passed := by
  unfold make_final_decision
  repeat' split
  all_goals simp [build]

/-- The result's `severity_score` is `finalScore`. -/
theorem mfd_severity (cfg : RuleConfig) (st : EngineState) :
    (make_final_decision cfg st).severity_score = finalScore cfg st := by
  unfold make_final_decision
  repeat' split
  all_goals simp [build]

/-- The result's `confidence_score` is `confidenceOf`. -/
theorem mfd_conf (cfg : RuleConfig) (st : EngineState) :
    (make_final_decision cfg st).confidence_score = confidenceOf cfg st := by
  unfold make_final_decision
  repeat' split
  all_goals simp [build]

/-- Any CRITICAL entry in the accumulator forces the REJECTED branch of
the decision, with human review and HIGH confidence level. -/
theorem mfd_critical (cfg : RuleConfig) (st : EngineState) (f : FailedRule)
    (hf : f ∈ st.failed) (hs : f.severity = "CRITICAL") :
    (make_final_decision cfg st).status = "REJECTED" ∧
    (make_final_decision cfg st).requires_human_review = true ∧
    (make_final_decision cfg st).confidence_level = "HIGH" := by
  have hne : st.failed.isEmpty = false := by
    cases h : st.failed with
    | nil => rw [h] at hf; simp at hf
    | cons a l => rfl
  have hcrit : 0 < criticalCount st := by
    unfold criticalCount
    have hmem : f ∈ st.failed.filter (fun r => r.severity == "CRITICAL") :=
      List.mem_filter.mpr ⟨hf, by simp [hs]⟩
    exact List.length_pos.mpr (List.ne_nil_of_mem hmem)
  unfold make_final_decision
  rw [if_neg (by simp [hne]), if_pos hcrit]
  simp [build]

/-! ## Auxiliary bounds for the final decision -/

theorem passRate_bounds (st : EngineState) :
    0 ≤ passRate st ∧ passRate st ≤ 1 := by
  unfold passRate
  dsimp only
  split
  · norm_num
  · rename_i hne
    have hpos : (0:Rat) < ((st.passed.length + st.failed.length : Nat) : Rat) := by
      exact_mod_cast Nat.pos_of_ne_zero hne
    constructor
    · exact div_nonneg (by exact_mod_cast Nat.zero_le _) (le_of_lt hpos)
    · rw [div_le_one hpos]
      exact_mod_cast Nat.le_add_right st.passed.length st.failed.length

theorem finalScore_nonneg (st : EngineState) (h : 0 ≤ st.raw_score) :
    0 ≤ finalScore defaultRuleConfig st := by
  unfold finalScore
  have hm : (0:Rat) ≤ defaultRuleConfig.COMPOUND_MULTIPLIER := by
    rw [show defaultRuleConfig.COMPOUND_MULTIPLIER = 3/2 from rfl]; norm_num
  split
  · exact mul_nonneg h hm
  · exact h

theorem confidence_bounds (st : EngineState) (h : 0 ≤ st.raw_score) :
    0 ≤ confidenceOf defaultRuleConfig st ∧ confidenceOf defaultRuleConfig st ≤ 100 := by
  unfold confidenceOf
  obtain ⟨hp0, hp1⟩ := passRate_bounds st
  have hf0 := finalScore_nonneg st h
  have hpen0 : (0:Rat) ≤ min (finalScore defaultRuleConfig st / 50) 1 :=
    le_min (by positivity) (by norm_num)
  constructor
  · exact mul_nonneg (le_max_left 0 _) (by norm_num)
  · have h1 : max 0 (passRate st - min (finalScore defaultRuleConfig st / 50) 1) ≤ 1 :=
      max_le (by norm_num) (le_trans (sub_le_self _ hpen0) hp1)
    calc max 0 (passRate st - min (finalScore defaultRuleConfig st / 50) 1) * 100
        ≤ 1 * 100 := mul_le_mul_of_nonneg_right h1 (by norm_num)
      _ = 100 := by norm_num

/-! ## Helper lemmas for checks 1, 5 and 14 and the decision -/

theorem check_1_screen (ai : AiAnalysis) (st : EngineState)
    (h : ai.forensic_indicators.is_screen_recapture = true) :
    check_1_image_quality_gate defaultRuleConfig ai st =
      ruleFail defaultRuleConfig st "SCREEN_RECAPTURE"
        "Image Quality Gate - Screen Recapture (v2 NEW)"
        "Image appears to be a screen-capture or photo of a screen. EXIF metadata is stripped and AI results are unreliable."
        "CRITICAL" "A" := by
  unfold check_1_image_quality_gate
  rw [h]
  simp

theorem subIn_nil (l : List Char) : subIn [] l = true := by
  induction l with
  | nil => rfl
  | cons h t ih => simp [subIn, isPrefOf, ih]

theorem strIn_empty (s : String) : strIn "" s = true := subIn_nil s.data

theorem criticalCount_fail (cfg : RuleConfig) (st : EngineState)
    (i n r s p : String) :
    criticalCount (ruleFail cfg st i n r s p) =
      criticalCount st + (if s = "CRITICAL" then 1 else 0) := by
  unfold criticalCount ruleFail
  dsimp only
  rw [List.filter_append]
  by_cases h : s = "CRITICAL"
  · simp [List.filter, h]
  · have hb : (s == "CRITICAL") = false := beq_eq_false_iff_ne.mpr h
    simp [List.filter, hb, h]

theorem highCount_fail (cfg : RuleConfig) (st : EngineState)
    (i n r s p : String) :
    highCount (ruleFail cfg st i n r s p) =
      highCount st + (if s = "HIGH" then 1 else 0) := by
  unfold highCount ruleFail
  dsimp only
  rw [List.filter_append]
  by_cases h : s = "HIGH"
  · simp [List.filter, h]
  · have hb : (s == "HIGH") = false := beq_eq_false_iff_ne.mpr h
    simp [List.filter, hb, h]

theorem raw_fail (cfg : RuleConfig) (st : EngineState) (i n r s p : String) :
    (ruleFail cfg st i n r s p).raw_score =
      st.raw_score + severityWeight cfg.SEVERITY_WEIGHTS s := rfl

theorem finalScore_fail_mono (st : EngineState) (i n r s p : String)
    (h : 0 ≤ st.raw_score) :
    finalScore defaultRuleConfig st ≤
      finalScore defaultRuleConfig (ruleFail defaultRuleConfig st i n r s p) := by
  have hw := defaultWeight_nonneg s
  have hraw : st.raw_score ≤ (ruleFail defaultRuleConfig st i n r s p).raw_score := by
    rw [raw_fail]; linarith
  have hraw0 : 0 ≤ (ruleFail defaultRuleConfig st i n r s p).raw_score := le_trans h hraw
  have hsev : criticalCount st + highCount st ≤
      criticalCount (ruleFail defaultRuleConfig st i n r s p) +
      highCount (ruleFail defaultRuleConfig st i n r s p) := by
    rw [criticalCount_fail, highCount_fail]
    split <;> split <;> omega
  have hm : defaultRuleConfig.COMPOUND_MULTIPLIER = 3/2 := rfl
  unfold finalScore
  split <;> split
  · exact mul_le_mul_of_nonneg_right hraw (by rw [hm]; norm_num)
  · rename_i h1 h2
    exact absurd (le_trans h1 hsev) h2
  · rw [hm]
    nlinarith [hraw0, hraw]
  · exact hraw

/-! ## Claim theorems -/

/-- C1 counterexample: with `is_screen_recapture = true` and otherwise
empty facts, check 1 records its CRITICAL SCREEN_RECAPTURE failure but
checks 2–4 still run: the Phase-A failure list also contains
METADATA_MISSING and GPS_MISSING, so the run does not have "no other
Phase-A failure". -/
theorem C1_screen_recapture_counterexample :
    aiScreenOnly.forensic_indicators.is_screen_recapture = true ∧
    ((verify_claim defaultRuleConfig 0 aiScreenOnly policyScenA none 0).failed_checks.filter
      (fun f => f.phase == "A")).map (fun f => f.rule_id) =
      ["SCREEN_RECAPTURE", "METADATA_MISSING", "GPS_MISSING"] ∧
    (verify_claim defaultRuleConfig 0 aiScreenOnly policyScenA none 0).status = "REJECTED" := by
  with_unfolding_all decide

/-- C1 (amended): whenever `forensic_indicators.is_screen_recapture` is
true, `verify_claim` records exactly one SCREEN_RECAPTURE failure, that
failure is CRITICAL in phase A, no IMAGE_BLURRY or IMAGE_LOW_QUALITY
failure is recorded (the short-circuit skips only the rest of check 1),
and the final status is REJECTED.  Checks 2–4 still execute and may
record further Phase-A failures. -/
theorem C1_screen_recapture_amended (claim_amount : Int) (ai : AiAnalysis)
    (policy : PolicyData) (history : Option (List HistoryEntry)) (today : Int)
    (h : ai.forensic_indicators.is_screen_recapture = true) :
    (verify_claim defaultRuleConfig claim_amount ai policy history today).status = "REJECTED" ∧
    ((verify_claim defaultRuleConfig claim_amount ai policy history today).failed_checks.filter
      (fun f => f.rule_id == "SCREEN_RECAPTURE")).length = 1 ∧
    (∀ f ∈ (verify_claim defaultRuleConfig claim_amount ai policy history today).failed_checks,
      f.rule_id = "SCREEN_RECAPTURE" → f.severity = "CRITICAL" ∧ f.phase = "A") ∧
    (∀ f ∈ (verify_claim defaultRuleConfig claim_amount ai policy history today).failed_checks,
      f.rule_id ≠ "IMAGE_BLURRY" ∧ f.rule_id ≠ "IMAGE_LOW_QUALITY") := by
  have hv : verify_claim defaultRuleConfig claim_amount ai policy history today =
      make_final_decision defaultRuleConfig
        (run_checks defaultRuleConfig claim_amount ai policy history today (reset {})) := rfl
  have hrun : run_checks defaultRuleConfig claim_amount ai policy history today (reset {}) =
      run_rest_checks defaultRuleConfig claim_amount ai policy history today
        (ruleFail defaultRuleConfig (reset {}) "SCREEN_RECAPTURE"
          "Image Quality Gate - Screen Recapture (v2 NEW)"
          "Image appears to be a screen-capture or photo of a screen. EXIF metadata is stripped and AI results are unreliable."
          "CRITICAL" "A") := by
    unfold run_checks
    rw [check_1_screen ai _ h]
  obtain ⟨l, lp, hf, hp, hids, hraw, _, _⟩ :=
    run_rest_checks_spec claim_amount ai policy history today
      (ruleFail defaultRuleConfig (reset {}) "SCREEN_RECAPTURE"
        "Image Quality Gate - Screen Recapture (v2 NEW)"
        "Image appears to be a screen-capture or photo of a screen. EXIF metadata is stripped and AI results are unreliable."
        "CRITICAL" "A")
  rw [hrun] at hv
  have hbase : (ruleFail defaultRuleConfig (reset {}) "SCREEN_RECAPTURE"
      "Image Quality Gate - Screen Recapture (v2 NEW)"
      "Image appears to be a screen-capture or photo of a screen. EXIF metadata is stripped and AI results are unreliable."
      "CRITICAL" "A").failed =
      [⟨"SCREEN_RECAPTURE", "Image Quality Gate - Screen Recapture (v2 NEW)",
        "Image appears to be a screen-capture or photo of a screen. EXIF metadata is stripped and AI results are unreliable.",
        "CRITICAL", "A"⟩] := rfl
  rw [hbase] at hf
  have hscreen : (⟨"SCREEN_RECAPTURE", "Image Quality Gate - Screen Recapture (v2 NEW)",
      "Image appears to be a screen-capture or photo of a screen. EXIF metadata is stripped and AI results are unreliable.",
      "CRITICAL", "A"⟩ : FailedRule) ∈
      (run_rest_checks defaultRuleConfig claim_amount ai policy history today
        (ruleFail defaultRuleConfig (reset {}) "SCREEN_RECAPTURE"
          "Image Quality Gate - Screen Recapture (v2 NEW)"
          "Image appears to be a screen-capture or photo of a screen. EXIF metadata is stripped and AI results are unreliable."
          "CRITICAL" "A")).failed := by
    rw [hf]
    simp
  refine ⟨?_, ?_, ?_, ?_⟩
  · rw [hv]
    exact (mfd_critical defaultRuleConfig _ _ hscreen rfl).1
  · rw [hv, mfd_failed, hf]
    rw [List.filter_append]
    have h1 : List.filter (fun f => f.rule_id == "SCREEN_RECAPTURE")
        [(⟨"SCREEN_RECAPTURE", "Image Quality Gate - Screen Recapture (v2 NEW)",
          "Image appears to be a screen-capture or photo of a screen. EXIF metadata is stripped and AI results are unreliable.",
          "CRITICAL", "A"⟩ : FailedRule)] =
        [⟨"SCREEN_RECAPTURE", "Image Quality Gate - Screen Recapture (v2 NEW)",
          "Image appears to be a screen-capture or photo of a screen. EXIF metadata is stripped and AI results are unreliable.",
          "CRITICAL", "A"⟩] := rfl
    have h2 : List.filter (fun f => f.rule_id == "SCREEN_RECAPTURE") l = [] := by
      rw [List.filter_eq_nil_iff]
      intro f hfl
      have hmem := hids f hfl
      intro hid
      rw [beq_iff_eq] at hid
      rw [hid] at hmem
      exact absurd hmem (by decide)
    rw [h1, h2]
    rfl
  · rw [hv, mfd_failed, hf]
    intro f hfmem hid
    rcases List.mem_append.mp hfmem with hh | hh
    · rcases List.mem_singleton.mp hh with rfl
      exact ⟨rfl, rfl⟩
    · have hmem := hids f hh
      rw [hid] at hmem
      exact absurd hmem (by decide)
  · rw [hv, mfd_failed, hf]
    intro f hfmem
    rcases List.mem_append.mp hfmem with hh | hh
    · rcases List.mem_singleton.mp hh with rfl
      exact ⟨by decide, by decide⟩
    · have hmem := hids f hh
      constructor
      · intro hid; rw [hid] at hmem; exact absurd hmem (by decide)
      · intro hid; rw [hid] at hmem; exact absurd hmem (by decide)

/-- Witness for the amended C1 at the concrete screen-recapture input. -/
theorem C1_screen_recapture_amended_witness :
    aiScreenOnly.forensic_indicators.is_screen_recapture = true ∧
    ((verify_claim defaultRuleConfig 0 aiScreenOnly policyScenA none 0).status = "REJECTED" ∧
     ((verify_claim defaultRuleConfig 0 aiScreenOnly policyScenA none 0).failed_checks.filter
       (fun f => f.rule_id == "SCREEN_RECAPTURE")).length = 1 ∧
     (∀ f ∈ (verify_claim defaultRuleConfig 0 aiScreenOnly policyScenA none 0).failed_checks,
       f.rule_id = "SCREEN_RECAPTURE" → f.severity = "CRITICAL" ∧ f.phase = "A") ∧
     (∀ f ∈ (verify_claim defaultRuleConfig 0 aiScreenOnly policyScenA none 0).failed_checks,
       f.rule_id ≠ "IMAGE_BLURRY" ∧ f.rule_id ≠ "IMAGE_LOW_QUALITY")) :=
  ⟨rfl, C1_screen_recapture_amended 0 aiScreenOnly policyScenA none 0 rfl⟩

/-- C2: in every run of `verify_claim`, the presence of any failed check
with severity CRITICAL forces status REJECTED, with
`requires_human_review = true` and confidence level HIGH, regardless of
the final score. -/
theorem C2_critical_dominance (cfg : RuleConfig) (claim_amount : Int)
    (ai : AiAnalysis) (policy : PolicyData)
    (history : Option (List HistoryEntry)) (today : Int)
    (h : ∃ f ∈ (verify_claim cfg claim_amount ai policy history today).failed_checks,
      f.severity = "CRITICAL") :
    (verify_claim cfg claim_amount ai policy history today).status = "REJECTED" ∧
    (verify_claim cfg claim_amount ai policy history today).requires_human_review = true ∧
    (verify_claim cfg claim_amount ai policy history today).confidence_level = "HIGH" := by
  obtain ⟨f, hf, hs⟩ := h
  have hv : verify_claim cfg claim_amount ai policy history today =
      make_final_decision cfg
        (run_checks cfg claim_amount ai policy history today (reset {})) := rfl
  rw [hv, mfd_failed] at hf
  rw [hv]
  exact mfd_critical cfg _ f hf hs

/-- Witness for C2: a concrete screen-recapture run has a CRITICAL
failure and is REJECTED with review and HIGH confidence level. -/
theorem C2_critical_dominance_witness :
    (∃ f ∈ (verify_claim defaultRuleConfig 0 aiScreenOnly policyScenA none 0).failed_checks,
      f.severity = "CRITICAL") ∧
    ((verify_claim defaultRuleConfig 0 aiScreenOnly policyScenA none 0).status = "REJECTED" ∧
     (verify_claim defaultRuleConfig 0 aiScreenOnly policyScenA none 0).requires_human_review = true ∧
     (verify_claim defaultRuleConfig 0 aiScreenOnly policyScenA none 0).confidence_level = "HIGH") :=
  ⟨by with_unfolding_all decide,
   C2_critical_dominance defaultRuleConfig 0 aiScreenOnly policyScenA none 0
     (by with_unfolding_all decide)⟩

/-- C3 counterexample: on spec Scenario A (all-default facts, active
policy with plate/make/model populated, claim amount 0) the engine does
NOT approve: the run is REJECTED, `auto_approved` is false, and the
failed checks are neither empty nor only the LOW GPS-missing failure. -/
theorem C3_scenario_A_counterexample :
    (verify_claim defaultRuleConfig 0 {} policyScenA none 0).status = "REJECTED" ∧
    (verify_claim defaultRuleConfig 0 {} policyScenA none 0).auto_approved = false ∧
    ¬((verify_claim defaultRuleConfig 0 {} policyScenA none 0).failed_checks = [] ∨
      (verify_claim defaultRuleConfig 0 {} policyScenA none 0).failed_checks.map
        (fun f => (f.rule_id, f.severity)) = [("GPS_MISSING", "LOW")]) := by
  with_unfolding_all decide

/-- C3 (amended): on spec Scenario A the engine returns REJECTED with
`auto_approved = false`; the failures, in execution order, are
METADATA_MISSING (HIGH), GPS_MISSING (LOW), VEHICLE_LOW_CONFIDENCE
(MEDIUM), PLATE_NOT_DETECTED (HIGH), NARRATIVE_MISMATCH (HIGH), and the
compounded severity score is 27. -/
theorem C3_scenario_A_amended :
    (verify_claim defaultRuleConfig 0 {} policyScenA none 0).status = "REJECTED" ∧
    (verify_claim defaultRuleConfig 0 {} policyScenA none 0).auto_approved = false ∧
    (verify_claim defaultRuleConfig 0 {} policyScenA none 0).failed_checks.map
      (fun f => (f.rule_id, f.severity)) =
      [("METADATA_MISSING", "HIGH"), ("GPS_MISSING", "LOW"),
       ("VEHICLE_LOW_CONFIDENCE", "MEDIUM"), ("PLATE_NOT_DETECTED", "HIGH"),
       ("NARRATIVE_MISMATCH", "HIGH")] ∧
    (verify_claim defaultRuleConfig 0 {} policyScenA none 0).severity_score = 27 := by
  with_unfolding_all decide

/-- C4 counterexample: a run in which all sixteen checks execute with no
early exit (no screen recapture — every check passes) records 19
outcomes, not 16: check 2 contributes two entries and check 15 three. -/
theorem C4_outcome_count_counterexample :
    aiCleanRun.forensic_indicators.is_screen_recapture = false ∧
    (verify_claim defaultRuleConfig 0 aiCleanRun policyScenA none 0).failed_checks = [] ∧
    (verify_claim defaultRuleConfig 0 aiCleanRun policyScenA none 0).passed_checks.length +
      (verify_claim defaultRuleConfig 0 aiCleanRun policyScenA none 0).failed_checks.length
      = 19 := by
  with_unfolding_all decide

/-- C4 (amended): in every run of `verify_claim` the total number of
recorded outcomes `len passed_checks + len failed_checks` lies between
19 and 24: all sixteen checks always execute, and each contributes at
least one entry, with check 2 contributing exactly two, check 15 exactly
three, and checks 5, 6, 7 and 16 up to 3, 2, 2 and 2 respectively. -/
theorem C4_outcome_count_amended (claim_amount : Int) (ai : AiAnalysis)
    (policy : PolicyData) (history : Option (List HistoryEntry)) (today : Int) :
    19 ≤ (verify_claim defaultRuleConfig claim_amount ai policy history today).passed_checks.length +
      (verify_claim defaultRuleConfig claim_amount ai policy history today).failed_checks.length ∧
    (verify_claim defaultRuleConfig claim_amount ai policy history today).passed_checks.length +
      (verify_claim defaultRuleConfig claim_amount ai policy history today).failed_checks.length ≤ 24 := by
  have hv : verify_claim defaultRuleConfig claim_amount ai policy history today =
      make_final_decision defaultRuleConfig
        (run_checks defaultRuleConfig claim_amount ai policy history today (reset {})) := rfl
  obtain ⟨l, lp, hf, hp, _, _, hlo, hhi⟩ :=
    run_checks_spec claim_amount ai policy history today (reset {})
  rw [hv, mfd_passed, mfd_failed, hf, hp]
  have h1 : (reset ({} : EngineState)).failed = [] := rfl
  have h2 : (reset ({} : EngineState)).passed = [] := rfl
  rw [h1, h2]
  simp only [List.nil_append, List.length_nil]
  omega

/-- C7: for every input, the confidence score of the returned result
lies in [0, 100]. -/
theorem C7_confidence_bounds (claim_amount : Int) (ai : AiAnalysis)
    (policy : PolicyData) (history : Option (List HistoryEntry)) (today : Int) :
    0 ≤ (verify_claim defaultRuleConfig claim_amount ai policy history today).confidence_score ∧
    (verify_claim defaultRuleConfig claim_amount ai policy history today).confidence_score ≤ 100 := by
  have hv : verify_claim defaultRuleConfig claim_amount ai policy history today =
      make_final_decision defaultRuleConfig
        (run_checks defaultRuleConfig claim_amount ai policy history today (reset {})) := rfl
  obtain ⟨l, lp, hf, hp, hids, hraw, _, _⟩ :=
    run_checks_spec claim_amount ai policy history today (reset {})
  have h0 : 0 ≤ (run_checks defaultRuleConfig claim_amount ai policy history today
      (reset {})).raw_score := by
    have hz : (reset ({} : EngineState)).raw_score = 0 := rfl
    rw [← hz]
    exact hraw
  rw [hv, mfd_conf]
  exact confidence_bounds _ h0

/-- C8 counterexample: `verify_claim` consults the wall clock inside
check 15 (and check 16); with identical claim, facts, policy and
history, a call on day 0 (inside the policy window) returns APPROVED and
a call on day 11 (after the policy end date, day 10) returns REJECTED,
so the results differ beyond the timestamp. -/
theorem C8_determinism_counterexample :
    verify_claim defaultRuleConfig 0 aiCleanRun policyEndDay10 none 0 ≠
      verify_claim defaultRuleConfig 0 aiCleanRun policyEndDay10 none 11 ∧
    (verify_claim defaultRuleConfig 0 aiCleanRun policyEndDay10 none 0).status = "APPROVED" ∧
    (verify_claim defaultRuleConfig 0 aiCleanRun policyEndDay10 none 11).status = "REJECTED" := by
  with_unfolding_all decide

/-- C8 (amended): for identical inputs AND an identical current date,
`verify_claim` is deterministic in every modelled field, and the result
is independent of any accumulator state left in the engine by earlier
calls, because the method starts by resetting it. -/
theorem C8_determinism_amended (prev1 prev2 : EngineState) (cfg : RuleConfig)
    (claim_amount : Int) (ai : AiAnalysis) (policy : PolicyData)
    (history : Option (List HistoryEntry)) (today : Int) :
    verify_claim_from prev1 cfg claim_amount ai policy history today =
      verify_claim_from prev2 cfg claim_amount ai policy history today := rfl

/-- C9: `estimate_repair_cost ["front_bumper", "hood", "door_fl"]`
resolves each panel by exact table match, yields a breakdown of length
3 with no unrecognized panels, USD totals 1000/3000, and INR totals
equal to the USD totals converted at the fixed rate 84 (84000/252000). -/
theorem C9_estimator_scenario_F :
    resolve_panel_key "front_bumper" = some "front_bumper" ∧
    resolve_panel_key "hood" = some "hood" ∧
    resolve_panel_key "door_fl" = some "door_fl" ∧
    (estimate_repair_cost ["front_bumper", "hood", "door_fl"]).breakdown.length = 3 ∧
    (estimate_repair_cost ["front_bumper", "hood", "door_fl"]).unrecognized_panels = [] ∧
    (estimate_repair_cost ["front_bumper", "hood", "door_fl"]).total_usd_min = 1000 ∧
    (estimate_repair_cost ["front_bumper", "hood", "door_fl"]).total_usd_max = 3000 ∧
    (estimate_repair_cost ["front_bumper", "hood", "door_fl"]).total_inr_min =
      pyRound ((1000 : Rat) * USD_TO_INR) ∧
    (estimate_repair_cost ["front_bumper", "hood", "door_fl"]).total_inr_max =
      pyRound ((3000 : Rat) * USD_TO_INR) ∧
    (estimate_repair_cost ["front_bumper", "hood", "door_fl"]).total_inr_min = 84000 ∧
    (estimate_repair_cost ["front_bumper", "hood", "door_fl"]).total_inr_max = 252000 := by
  with_unfolding_all decide

set_option maxRecDepth 8192 in
/-- C5 counterexample: Check 14 on a bundle with severity "minor", AI
minimum estimate 1000, NO AI maximum estimate, and claim amount 100
(< 1000/2) records no CLAIM_SUSPICIOUSLY_LOW failure — it passes with
DAMAGE_COST_SANITY_NO_ESTIMATE, because the under-declaration branch is
nested under the `ai_cost_max` presence test. -/
theorem C5_under_declaration_counterexample :
    (strDefault aiMinNoMax.damage_assessment.ai_severity "none").toLower ≠ "none" ∧
    aiMinNoMax.damage_assessment.ai_cost_min = some 1000 ∧
    aiMinNoMax.damage_assessment.ai_cost_max = none ∧
    ((100 : Int) : Rat) < (1000 : Rat) / 2 ∧
    (check_14_damage_cost_sanity defaultRuleConfig 100 aiMinNoMax {}).failed = [] ∧
    (check_14_damage_cost_sanity defaultRuleConfig 100 aiMinNoMax {}).passed =
      ["DAMAGE_COST_SANITY_NO_ESTIMATE"] := by
  with_unfolding_all decide

/-- C5 (amended): the LOW under-declaration failure of Check 14 fires
exactly when, in addition to the conditions of the claim, the AI
maximum estimate is present and positive (and the inflation ratio test
did not fire): under those hypotheses the check appends the single
LOW-severity CLAIM_SUSPICIOUSLY_LOW failure. -/
theorem C5_under_declaration_amended (claim_amount : Int) (ai : AiAnalysis)
    (st : EngineState) (mn mx : Int)
    (hguard : ((strDefault ai.damage_assessment.ai_severity "none").toLower == "none" &&
      decide (claim_amount > 0)) = false)
    (hmax : ai.damage_assessment.ai_cost_max = some mx)
    (hmx : mx > 0)
    (hratio : ¬((claim_amount : Rat) / (mx : Rat) > defaultRuleConfig.maxClaimToEstimateRatio))
    (hmin : ai.damage_assessment.ai_cost_min = some mn)
    (hlow : (claim_amount : Rat) < (mn : Rat) / 2) :
    (check_14_damage_cost_sanity defaultRuleConfig claim_amount ai st).failed =
      st.failed ++ [⟨"CLAIM_SUSPICIOUSLY_LOW", "Damage-Cost Sanity - Under-declared (v2 NEW)",
        "Claim is far below the AI min estimate. Possible under-declaration or incorrect images.",
        "LOW", "D"⟩] := by
  unfold check_14_damage_cost_sanity
  dsimp only
  rw [hmax, hmin]
  rw [if_neg (by simp [hguard])]
  dsimp only
  rw [if_pos hmx]
  rw [if_neg hratio]
  rw [if_pos hlow]
  rfl

/-- Witness for the amended C5: severity "minor", estimates 1000–3000,
claim 100 appends the LOW CLAIM_SUSPICIOUSLY_LOW failure. -/
theorem C5_under_declaration_amended_witness :
    (((strDefault aiMinAndMax.damage_assessment.ai_severity "none").toLower == "none" &&
      decide ((100 : Int) > 0)) = false) ∧
    aiMinAndMax.damage_assessment.ai_cost_max = some 3000 ∧
    ((3000 : Int) > 0) ∧
    (¬(((100 : Int) : Rat) / ((3000 : Int) : Rat) > defaultRuleConfig.maxClaimToEstimateRatio)) ∧
    aiMinAndMax.damage_assessment.ai_cost_min = some 1000 ∧
    (((100 : Int) : Rat) < ((1000 : Int) : Rat) / 2) ∧
    (check_14_damage_cost_sanity defaultRuleConfig 100 aiMinAndMax {}).failed =
      ({} : EngineState).failed ++
      [⟨"CLAIM_SUSPICIOUSLY_LOW", "Damage-Cost Sanity - Under-declared (v2 NEW)",
        "Claim is far below the AI min estimate. Possible under-declaration or incorrect images.",
        "LOW", "D"⟩] :=
  ⟨by with_unfolding_all decide, rfl, by decide, by with_unfolding_all decide, rfl,
   by with_unfolding_all decide,
   C5_under_declaration_amended 100 aiMinAndMax {} 1000 3000
     (by with_unfolding_all decide) rfl (by decide)
     (by with_unfolding_all decide) rfl (by with_unfolding_all decide)⟩

/-- C6: adding one failing check to the accumulator (via `ruleFail`,
holding every other recorded outcome fixed) never decreases the final
severity score and never turns a REJECTED verdict into anything but
REJECTED, for any accumulator with the non-negative raw score every run
maintains. -/
theorem C6_monotonicity (st : EngineState) (i n r s p : String)
    (h : 0 ≤ st.raw_score) :
    (make_final_decision defaultRuleConfig st).severity_score ≤
      (make_final_decision defaultRuleConfig
        (ruleFail defaultRuleConfig st i n r s p)).severity_score ∧
    ((make_final_decision defaultRuleConfig st).status = "REJECTED" →
      (make_final_decision defaultRuleConfig
        (ruleFail defaultRuleConfig st i n r s p)).status = "REJECTED") := by
  have hmono := finalScore_fail_mono st i n r s p h
  have hle : criticalCount st ≤
      criticalCount (ruleFail defaultRuleConfig st i n r s p) := by
    rw [criticalCount_fail]; split <;> omega
  have hne : (ruleFail defaultRuleConfig st i n r s p).failed.isEmpty = false := by
    simp [ruleFail]
  constructor
  · rw [mfd_severity, mfd_severity]
    exact hmono
  · intro hrej
    unfold make_final_decision at hrej ⊢
    rw [if_neg (by simp [hne])]
    by_cases hemp : st.failed.isEmpty = true
    · rw [if_pos hemp] at hrej; simp [build] at hrej
    · rw [if_neg hemp] at hrej
      by_cases hcrit : 0 < criticalCount st
      · rw [if_pos (lt_of_lt_of_le hcrit hle)]
        simp [build]
      · rw [if_neg hcrit] at hrej
        by_cases hscore : finalScore defaultRuleConfig st ≥
            defaultRuleConfig.AUTO_REJECT_SCORE_THRESHOLD
        · by_cases hcrit2 : 0 < criticalCount (ruleFail defaultRuleConfig st i n r s p)
          · rw [if_pos hcrit2]; simp [build]
          · rw [if_neg hcrit2, if_pos (le_trans hscore hmono)]
            simp [build]
        · rw [if_neg hscore] at hrej
          split at hrej <;> simp [build] at hrej

/-- Witness for C6 at the empty accumulator plus one LOW failure. -/
theorem C6_monotonicity_witness :
    0 ≤ ({} : EngineState).raw_score ∧
    ((make_final_decision defaultRuleConfig {}).severity_score ≤
      (make_final_decision defaultRuleConfig
        (ruleFail defaultRuleConfig {} "EXTRA_FAILURE" "Extra Failure"
          "An additional failing check." "LOW" "D")).severity_score ∧
     ((make_final_decision defaultRuleConfig {}).status = "REJECTED" →
      (make_final_decision defaultRuleConfig
        (ruleFail defaultRuleConfig {} "EXTRA_FAILURE" "Extra Failure"
          "An additional failing check." "LOW" "D")).status = "REJECTED")) :=
  ⟨le_refl 0,
   C6_monotonicity {} "EXTRA_FAILURE" "Extra Failure"
     "An additional failing check." "LOW" "D" (le_refl 0)⟩

/-- C10: in Check 5, when the policy has non-empty make and model but
the detected make and model are both empty (e.g. the
`vehicle_identification` section is absent), the either-direction
substring containment succeeds on the empty string: VEHICLE_MATCH is
recorded as passed and no CRITICAL VEHICLE_MISMATCH failure is
appended. -/
theorem C10_vehicle_match_empty_detected (ai : AiAnalysis)
    (policy : PolicyData) (st : EngineState)
    (hdm : strD ai.vehicle_identification.make = "")
    (hdd : strD ai.vehicle_identification.model = "")
    (hpm : (strD policy.vehicle_make).toLower.isEmpty = false)
    (hpd : (strD policy.vehicle_model).toLower.isEmpty = false) :
    "VEHICLE_MATCH" ∈ (check_5_vehicle_match defaultRuleConfig ai policy st).passed ∧
    ∀ f ∈ (check_5_vehicle_match defaultRuleConfig ai policy st).failed,
      f ∈ st.failed ∨ f.rule_id ≠ "VEHICLE_MISMATCH" := by
  unfold check_5_vehicle_match
  dsimp only
  rw [hdm, hdd]
  have hlow : ("" : String).toLower = "" := by with_unfolding_all rfl
  rw [hlow]
  simp only [strIn_empty, Bool.or_true, hpm, hpd, Bool.not_false, Bool.and_true,
    Bool.true_and, Bool.and_self, Bool.not_true, Bool.false_eq_true, if_false]
  constructor
  · split <;> simp [ruleFail, rulePass]
  · split <;> split
    all_goals intro f hf
    all_goals simp only [ruleFail, rulePass, List.mem_append, List.mem_singleton] at hf
    all_goals first
    | exact Or.inl hf
    | (rcases hf with hf | rfl
       · exact Or.inl hf
       · exact Or.inr (by decide))
    | (rcases hf with (hf | rfl) | rfl
       · exact Or.inl hf
       · exact Or.inr (by decide)
       · exact Or.inr (by decide))

/-- Witness for C10: empty facts against `policyScenA`. -/
theorem C10_vehicle_match_empty_detected_witness :
    strD ({} : AiAnalysis).vehicle_identification.make = "" ∧
    strD ({} : AiAnalysis).vehicle_identification.model = "" ∧
    (strD policyScenA.vehicle_make).toLower.isEmpty = false ∧
    (strD policyScenA.vehicle_model).toLower.isEmpty = false ∧
    ("VEHICLE_MATCH" ∈ (check_5_vehicle_match defaultRuleConfig {} policyScenA {}).passed ∧
     ∀ f ∈ (check_5_vehicle_match defaultRuleConfig {} policyScenA {}).failed,
       f ∈ ({} : EngineState).failed ∨ f.rule_id ≠ "VEHICLE_MISMATCH") :=
  ⟨rfl, rfl, by with_unfolding_all decide, by with_unfolding_all decide,
   C10_vehicle_match_empty_detected {} policyScenA {} rfl rfl
     (by with_unfolding_all decide) (by with_unfolding_all decide)⟩

end Autoclaim
